import Mathlib

/-!
# Axis-aligned rectangle algebra and widget passes of TTauri

A shallow embedding of `Foundation/include/TTauri/Foundation/aarect.hpp` and of
the passes, hit test and paint order of
`src/ttauri/widgets/overlay_view_widget.hpp` and
`src/ttauri/widgets/toolbar_tab_button_widget.hpp`, and of the buffer layout
and device score of `TTauri/GUI/Device_vulkan.cpp`.
Lanes are rationals (`ℚ`), the SSE register `__m128` is a record of four lanes,
and the integer lane masks returned by the packed comparisons are natural
numbers. The functions are given first with exact lane arithmetic; the section
on float32 rounding gives `expand`, `shrink`, `align` and the layout pass of the
overlay view again with every lane operation rounded as the program does. A widget pass is a function from the
state of the widget to its result and the new state.
-/

namespace TTauri

/-! ## The four-lane vector the rectangle is stored in -/

/-- Four packed lanes of a `__m128` register, lane 0 first: `x`, `y`, `z`, `w`. -/
structure vec where
  x : ℚ
  y : ℚ
  z : ℚ
  w : ℚ
deriving DecidableEq

/-- Lane `i` (taken modulo four) of a register. -/
def vec.lane (v : vec) (i : Nat) : ℚ :=
  match i % 4 with
  | 0 => v.x
  | 1 => v.y
  | 2 => v.z
  | _ => v.w

/-- Intel `_mm_movemask_ps` on the four lane results of a packed comparison:
bit `i` of the mask is the outcome of lane `i`. -/
def movemask (b0 b1 b2 b3 : Bool) : Nat :=
  b0.toNat + 2 * b1.toNat + 4 * b2.toNat + 8 * b3.toNat

/-- Intel `_MM_SHUFFLE(fp3, fp2, fp1, fp0)`: packs four two-bit lane selectors. -/
def _MM_SHUFFLE (fp3 fp2 fp1 fp0 : Nat) : Nat :=
  (fp3 <<< 6) ||| (fp2 <<< 4) ||| (fp1 <<< 2) ||| fp0

/-- Intel `_mm_shuffle_ps(a, b, imm)`: the two low lanes are picked from `a`,
the two high lanes from `b`, each by a two-bit field of `imm`. -/
def _mm_shuffle_ps (a b : vec) (imm : Nat) : vec :=
  ⟨a.lane (imm % 4), a.lane (imm / 4 % 4), b.lane (imm / 16 % 4), b.lane (imm / 64 % 4)⟩

/-- Intel `_mm_permute_ps(a, imm)`: a shuffle of one register with itself. -/
def _mm_permute_ps (a : vec) (imm : Nat) : vec :=
  _mm_shuffle_ps a a imm

/-- Intel `_mm_blend_ps(a, b, imm)`: lane `i` comes from `b` when bit `i` of
`imm` is set and from `a` otherwise. -/
def _mm_blend_ps (a b : vec) (imm : Nat) : vec :=
  ⟨if imm.testBit 0 then b.x else a.x,
   if imm.testBit 1 then b.y else a.y,
   if imm.testBit 2 then b.z else a.z,
   if imm.testBit 3 then b.w else a.w⟩

/-- Intel `_mm_set_ss(r)`: `r` in lane 0, zero in the other lanes. -/
def _mm_set_ss (r : ℚ) : vec :=
  ⟨r, 0, 0, 0⟩

/-- Modelled from the spec: `vec.hpp` is not among the sources. `vec::point(x, y)`
is the homogeneous 2D point `(x, y, 0, 1)`, as `ttauri_assume(position.is_point())`
and `position.z() == 0.0` in the rectangle constructor require. -/
def vec.point (x y : ℚ) : vec :=
  ⟨x, y, 0, 1⟩

/-- Modelled from the spec: swizzle of `vec.hpp`, lanes `(x, y, x, y)`. -/
def vec.xyxy (v : vec) : vec := ⟨v.x, v.y, v.x, v.y⟩

/-- Modelled from the spec: swizzle of `vec.hpp`, lanes `(z, w, z, w)`. -/
def vec.zwzw (v : vec) : vec := ⟨v.z, v.w, v.z, v.w⟩

/-- Modelled from the spec: swizzle of `vec.hpp`, lanes `(z, w, x, y)`. -/
def vec.zwxy (v : vec) : vec := ⟨v.z, v.w, v.x, v.y⟩

/-- Modelled from the spec: swizzle of `vec.hpp`, lanes `(0, 0, x, y)`. -/
def vec._00xy (v : vec) : vec := ⟨0, 0, v.x, v.y⟩

/-- Modelled from the spec: swizzle of `vec.hpp`, lanes `(x, y, 0, 0)`. -/
def vec.xy00 (v : vec) : vec := ⟨v.x, v.y, 0, 0⟩

/-- Modelled from the spec: swizzle of `vec.hpp`, lanes `(x, y, 0, 1)`. -/
def vec.xy01 (v : vec) : vec := ⟨v.x, v.y, 0, 1⟩

/-- Modelled from the spec: swizzle of `vec.hpp`, lanes `(z, y, 0, 1)`. -/
def vec.zy01 (v : vec) : vec := ⟨v.z, v.y, 0, 1⟩

/-- Modelled from the spec: swizzle of `vec.hpp`, lanes `(x, w, 0, 1)`. -/
def vec.xw01 (v : vec) : vec := ⟨v.x, v.w, 0, 1⟩

/-- Modelled from the spec: swizzle of `vec.hpp`, lanes `(z, w, 0, 1)`. -/
def vec.zw01 (v : vec) : vec := ⟨v.z, v.w, 0, 1⟩

/-- Modelled from the spec: lane-wise `operator+` of `vec.hpp` (`_mm_add_ps`). -/
def vec.add (a b : vec) : vec := ⟨a.x + b.x, a.y + b.y, a.z + b.z, a.w + b.w⟩

/-- Modelled from the spec: lane-wise `operator-` of `vec.hpp` (`_mm_sub_ps`). -/
def vec.sub (a b : vec) : vec := ⟨a.x - b.x, a.y - b.y, a.z - b.z, a.w - b.w⟩

/-- Modelled from the spec: lane-wise `min` of `vec.hpp` (`_mm_min_ps`). -/
def vec.min (a b : vec) : vec := ⟨Min.min a.x b.x, Min.min a.y b.y, Min.min a.z b.z, Min.min a.w b.w⟩

/-- Modelled from the spec: lane-wise `max` of `vec.hpp` (`_mm_max_ps`). -/
def vec.max (a b : vec) : vec := ⟨Max.max a.x b.x, Max.max a.y b.y, Max.max a.z b.z, Max.max a.w b.w⟩

/-- Modelled from the spec: `operator>=` of `vec.hpp`, the lane mask of the
packed comparison `lhs >= rhs`; `aarect::contains` reads lanes `x, y` of it
as bits `0b0011` and lanes `z, w` as bits `0b1100`. -/
def vec.ge (lhs rhs : vec) : Nat :=
  movemask (decide (lhs.x ≥ rhs.x)) (decide (lhs.y ≥ rhs.y))
    (decide (lhs.z ≥ rhs.z)) (decide (lhs.w ≥ rhs.w))

/-- Modelled from the spec: `operator<=` of `vec.hpp`, the lane mask of the
packed comparison `lhs <= rhs`. -/
def vec.le (lhs rhs : vec) : Nat :=
  movemask (decide (lhs.x ≤ rhs.x)) (decide (lhs.y ≤ rhs.y))
    (decide (lhs.z ≤ rhs.z)) (decide (lhs.w ≤ rhs.w))

/-- Modelled from the spec: `operator>` of `vec.hpp`, the lane mask of the
packed comparison `lhs > rhs`. -/
def vec.gt (lhs rhs : vec) : Nat :=
  movemask (decide (lhs.x > rhs.x)) (decide (lhs.y > rhs.y))
    (decide (lhs.z > rhs.z)) (decide (lhs.w > rhs.w))

/-- Modelled from the spec: `operator<` of `vec.hpp`, the lane mask of the
packed comparison `lhs < rhs`. -/
def vec.lt (lhs rhs : vec) : Nat :=
  movemask (decide (lhs.x < rhs.x)) (decide (lhs.y < rhs.y))
    (decide (lhs.z < rhs.z)) (decide (lhs.w < rhs.w))

/-! ## The rectangle -/

/-- Class `aarect`: lanes `(x, y)` of `v` are the left-bottom corner, lanes
`(z, w)` the right-top corner. -/
structure aarect where
  v : vec
deriving DecidableEq

/-- Private factory `aarect::m128`: wraps a register. -/
def aarect.m128 (v : vec) : aarect := ⟨v⟩

/-- Constructor `aarect(x, y, width, height)`. -/
def aarect.from_xywh (x y width height : ℚ) : aarect :=
  ⟨⟨x, y, x + width, y + height⟩⟩

/-- Constructor `aarect(position, extent)`. -/
def aarect.from_position_extent (position extent : vec) : aarect :=
  ⟨position.xyxy.add extent._00xy⟩

/-- Member `aarect::corner<I>()`, the template index limited to `0..3` by its
`static_assert`. -/
def aarect.corner (r : aarect) (I : Fin 4) : vec :=
  if I.val = 0 then r.v.xy01
  else if I.val = 1 then r.v.zy01
  else if I.val = 2 then r.v.xw01
  else r.v.zw01

/-- Member `aarect::p1()`. -/
def aarect.p1 (r : aarect) : vec := r.corner 0

/-- Member `aarect::p2()`. -/
def aarect.p2 (r : aarect) : vec := r.corner 3

/-- Member `aarect::extent()`. -/
def aarect.extent (r : aarect) : vec := (r.v.zwzw.sub r.v).xy00

/-- Member `aarect::width()`. -/
def aarect.width (r : aarect) : ℚ := (r.v.zwzw.sub r.v).x

/-- Member `aarect::height()`. -/
def aarect.height (r : aarect) : ℚ := (r.v.zwzw.sub r.v).y

/-- Member `aarect::contains(rhs)`. -/
def aarect.contains (r : aarect) (rhs : vec) : Bool :=
  (((vec.ge rhs r.v) &&& 0b0011) == 0b0011) &&
  (((vec.le rhs.xyxy r.v) &&& 0b1100) == 0b1100)

/-- Friend `overlaps(lhs, rhs)`, with the masks as the source writes them
(hexadecimal `0x0011` and `0x1100`). -/
def overlaps (lhs rhs : aarect) : Bool :=
  let rhs_swap := rhs.v.zwxy
  if ((vec.gt lhs.v rhs_swap) &&& 0x0011) != 0 then
    false
  else if ((vec.lt lhs.v rhs_swap) &&& 0x1100) != 0 then
    false
  else
    true

/-- Friend `operator|(aarect, aarect)`: the bounding rectangle of both. -/
def aarect.or (lhs rhs : aarect) : aarect :=
  aarect.m128 (_mm_blend_ps (vec.min lhs.v rhs.v) (vec.max lhs.v rhs.v) 0b1100)

/-- Friend `expand(lhs, rhs)`, the lane operations exact; `expand_fl` rounds them. -/
def expand (lhs : aarect) (rhs : ℚ) : aarect :=
  let _000r := _mm_set_ss rhs
  let _00rr := _mm_permute_ps _000r (_MM_SHUFFLE 1 1 0 0)
  let _rr00 := _mm_permute_ps _000r (_MM_SHUFFLE 0 0 1 1)
  aarect.m128 ((lhs.v.sub _00rr).add _rr00)

/-- Friend `shrink(lhs, rhs)`, the lane operations exact; `shrink_fl` rounds them. -/
def shrink (lhs : aarect) (rhs : ℚ) : aarect :=
  expand lhs (-rhs)

/-- Modelled from the spec: enumeration `HorizontalAlignment` of the alignment
header, which is not among the sources; the three horizontal policies. -/
inductive HorizontalAlignment where
  | Left
  | Center
  | Right
deriving DecidableEq

/-- Modelled from the spec: enumeration `VerticalAlignment` of the alignment
header, which is not among the sources; the three vertical policies. -/
inductive VerticalAlignment where
  | Top
  | Middle
  | Bottom
deriving DecidableEq

/-- Modelled from the spec: enumeration `Alignment` of the alignment header,
which is not among the sources; a vertical and a horizontal policy,
independently combined. -/
inductive Alignment where
  | TopLeft
  | TopCenter
  | TopRight
  | MiddleLeft
  | MiddleCenter
  | MiddleRight
  | BottomLeft
  | BottomCenter
  | BottomRight
deriving DecidableEq

/-- Modelled from the spec: the horizontal policy of an alignment, which
`operator==(Alignment, HorizontalAlignment)` compares. -/
def Alignment.horizontal : Alignment → HorizontalAlignment
  | .TopLeft | .MiddleLeft | .BottomLeft => .Left
  | .TopCenter | .MiddleCenter | .BottomCenter => .Center
  | .TopRight | .MiddleRight | .BottomRight => .Right

/-- Modelled from the spec: the vertical policy of an alignment, which
`operator==(Alignment, VerticalAlignment)` compares. -/
def Alignment.vertical : Alignment → VerticalAlignment
  | .TopLeft | .TopCenter | .TopRight => .Top
  | .MiddleLeft | .MiddleCenter | .MiddleRight => .Middle
  | .BottomLeft | .BottomCenter | .BottomRight => .Bottom

/-- Friend `align(outside, inside, alignment)`, the lane operations exact;
`align_fl` rounds them. The `no_default` branches are `none`; `0.5f` is one
half. -/
def align (outside inside : aarect) (alignment : Alignment) : Option aarect :=
  let x : Option ℚ :=
    if alignment.horizontal = HorizontalAlignment.Left then
      some outside.p1.x
    else if alignment.horizontal = HorizontalAlignment.Right then
      some (outside.p2.x - inside.width)
    else if alignment.horizontal = HorizontalAlignment.Center then
      some ((outside.p1.x + (outside.width * (1 / 2))) - (inside.width * (1 / 2)))
    else
      none
  let y : Option ℚ :=
    if alignment.vertical = VerticalAlignment.Bottom then
      some outside.p1.y
    else if alignment.vertical = VerticalAlignment.Top then
      some (outside.p2.y - inside.height)
    else if alignment.vertical = VerticalAlignment.Middle then
      some ((outside.p1.y + (outside.height * (1 / 2))) - (inside.height * (1 / 2)))
    else
      none
  match x, y with
  | some x, some y => some (aarect.from_position_extent (vec.point x y) inside.extent)
  | _, _ => none

/-- Modelled from the spec: `operator*` of `vec.hpp` with a scalar, every
lane multiplied by `rhs`. -/
def vec.mul_scalar (a : vec) (rhs : ℚ) : vec := ⟨a.x * rhs, a.y * rhs, a.z * rhs, a.w * rhs⟩

/-- Constructor `aarect(extent)`: left-bottom corner at the origin. -/
def aarect.from_extent (extent : vec) : aarect :=
  ⟨extent._00xy⟩

/-- Static member `aarect::p1p2(p1, p2)`. -/
def aarect.p1p2 (p1 p2 : vec) : aarect :=
  aarect.m128 (_mm_shuffle_ps p1 p2 (_MM_SHUFFLE 1 0 1 0))

/-- Member `aarect::x()`. -/
def aarect.x (r : aarect) : ℚ := r.v.x

/-- Member `aarect::y()`. -/
def aarect.y (r : aarect) : ℚ := r.v.y

/-- Friend `operator|(aarect, vec)`: the rectangle grown to include a point;
`none` when `ttauri_assume(rhs.w() == 1.0f)` is violated. -/
def aarect.or_vec (lhs : aarect) (rhs : vec) : Option aarect :=
  if rhs.w = 1 then
    some (aarect.m128 (_mm_blend_ps (vec.min lhs.v rhs) (vec.max lhs.v rhs.xyxy) 0b1100))
  else
    none

/-- Member `aarect::operator|=(vec)`: the value assigned to `*this`. -/
def aarect.or_assign_vec (self : aarect) (rhs : vec) : Option aarect :=
  self.or_vec rhs

/-- Friend `operator+(aarect, vec)`: translation. -/
def aarect.add_vec (lhs : aarect) (rhs : vec) : aarect :=
  aarect.m128 (lhs.v.add rhs.xyxy)

/-- Friend `scale(lhs, rhs)`; `0.5f` is one half. -/
def scale (lhs : aarect) (rhs : ℚ) : aarect :=
  let extent := lhs.extent
  let scaled_extent := extent.mul_scalar rhs
  let diff_extent := scaled_extent.sub extent
  let half_diff_extent := diff_extent.mul_scalar (1 / 2)
  let p1 := lhs.p1.sub half_diff_extent
  let p2 := lhs.p2.add half_diff_extent
  aarect.p1p2 p1 p2

/-! ## Widgets

`Widget.hpp`, `Window`, `Theme`, `TextCell` and `abstract_radio_button_widget`
are not among the sources. The members the two widgets of
`src/ttauri/widgets` read and write are collected in records; the lock
assertions `tt_assume(GUISystem_mutex.recurse_lock_count())` are not modelled.
-/

/-- Modelled from the spec: a float that may be `+infinity`, for the unbounded
maximum of a preferred size. -/
inductive float_inf where
  | finite (value : ℚ)
  | infinity
deriving DecidableEq

/-- Modelled from the spec: the preferred size of a widget, a range of a
minimum and a maximum extent where the maximum may be unbounded. -/
structure interval_vec2 where
  minimum : vec
  maximum : float_inf × float_inf
deriving DecidableEq

/-- Modelled from the spec: `relative_base_line`, a vertical alignment anchor
and an offset. -/
structure relative_base_line where
  alignment : VerticalAlignment
  offset : ℚ
deriving DecidableEq

/-- Modelled from the spec: the window host, which provides the current window
extent and the active flag. -/
structure Window where
  currentWindowExtent : vec
  active : Bool
deriving DecidableEq

/-- Modelled from the spec: the constants of `Theme` the widgets use; their
values are not among the sources. -/
structure Theme where
  margin : ℚ
  borderWidth : ℚ
  labelStyle : Nat

/-- Modelled from the spec: a display time point. -/
abbrev time_point := Int

/-- Modelled from the spec: the layout state of class `Widget` (`Widget.hpp` is
not among the sources), the members named in the widget sources. -/
structure Widget where
  window : Window
  p_draw_layer : ℚ
  p_semantic_layer : Int
  p_preferred_size : interval_vec2
  p_preferred_base_line : relative_base_line
  p_window_rectangle : aarect
  p_window_clipping_rectangle : aarect
  p_margin : ℚ
  request_reconstrain : Bool
  request_relayout : Bool
deriving DecidableEq

/-- Modelled from the spec: `Widget::update_constraints` of the base class,
which is not among the sources. It reports whether the widget itself asked to
be reconstrained since the last pass and clears that dirty flag. -/
def Widget.update_constraints (self : Widget) : Bool × Widget :=
  (self.request_reconstrain, { self with request_reconstrain := false })

/-- Modelled from the spec: `Widget::update_layout` of the base class, which is
not among the sources. The relayout in effect is the caller's request or the
widget's own dirty flag, which is consumed; it is reported back. -/
def Widget.update_layout (self : Widget) (_display_time_point : time_point)
    (need_layout : Bool) : Bool × Widget :=
  let need_layout := need_layout || self.request_relayout
  (need_layout, { self with request_relayout := false })

/-- Modelled from the spec: `Widget::set_layout_parameters`, which is not among
the sources: the parent assigns the window rectangle and the clipping
rectangle. -/
def Widget.set_layout_parameters (self : Widget) (window_rectangle
    window_clipping_rectangle : aarect) : Widget :=
  { self with
    p_window_rectangle := window_rectangle
    p_window_clipping_rectangle := window_clipping_rectangle }

/-- Virtual interface of class `Widget` as a parent reaches it through its
child pointer, on a child of state type `C`. A pass gives `none` when an
assertion of the child fails. -/
structure WidgetOps (C : Type) where
  update_constraints : C → Option (Bool × C)
  update_layout : C → time_point → Bool → Option (Bool × C)
  set_layout_parameters : C → aarect → aarect → C
  preferred_size : C → interval_vec2
  preferred_base_line : C → relative_base_line

/-- Virtual interface of a plain `Widget`. -/
def Widget.ops : WidgetOps Widget where
  update_constraints := fun self => some self.update_constraints
  update_layout := fun self t need_layout => some (self.update_layout t need_layout)
  set_layout_parameters := Widget.set_layout_parameters
  preferred_size := Widget.p_preferred_size
  preferred_base_line := Widget.p_preferred_base_line

/-- Modelled from the spec: `fit(bounds, rectangle)`, which is not among the
sources: the rectangle is first made no larger than the bounds and then moved
by the least amount that brings it inside the bounds. -/
def fit (bounds rectangle : aarect) : aarect :=
  let resized_rectangle := aarect.from_xywh rectangle.x rectangle.y
    (Min.min rectangle.width bounds.width) (Min.min rectangle.height bounds.height)
  let translate_from_p1 := vec.max ⟨0, 0, 0, 0⟩ (bounds.p1.sub resized_rectangle.p1)
  let translate_from_p2 := vec.min ⟨0, 0, 0, 0⟩ (bounds.p2.sub resized_rectangle.p2)
  resized_rectangle.add_vec (translate_from_p1.add translate_from_p2)

/-- Class `overlay_view_widget`: a `Widget` with one child pointer, null until
`make_widget` is called. -/
structure overlay_view_widget (C : Type) extends Widget where
  child : Option C

/-- Constructor `overlay_view_widget(window, parent)`. The result of the base
constructor `Widget(window, parent)` is a parameter. -/
def overlay_view_widget.ctor {C : Type} (Widget_ctor : Window → Option Widget → Widget)
    (window : Window) (parent : Option Widget) : overlay_view_widget C :=
  let base := Widget_ctor window parent
  match parent with
  | some parent =>
    { toWidget := { base with
        p_draw_layer := parent.p_draw_layer + 20
        p_semantic_layer := 0 }
      child := none }
  | none => { toWidget := base, child := none }

/-- Member `overlay_view_widget::update_constraints`; `none` when
`tt_assume(child)` fails or the child fails. -/
def overlay_view_widget.update_constraints {C : Type} (ops : WidgetOps C)
    (self : overlay_view_widget C) : Option (Bool × overlay_view_widget C) :=
  let (has_updated_contraints, base) := Widget.update_constraints self.toWidget
  match self.child with
  | none => none
  | some child =>
    match ops.update_constraints child with
    | none => none
    | some (child_changed, child) =>
      if child_changed || has_updated_contraints then
        some (true,
          { toWidget := { base with
              p_preferred_size := ops.preferred_size child
              p_preferred_base_line := ops.preferred_base_line child }
            child := some child })
      else
        some (false, { toWidget := base, child := some child })

/-- Member `overlay_view_widget::update_layout`, the lane operations exact and
the base pass the modelled `Widget.update_layout`; `update_layout_over` has
the rounding and the base pass as parameters. `fit` and the theme constants
are parameters; `none` when `tt_assume(child)` fails or the child fails. -/
def overlay_view_widget.update_layout {C : Type} (theme : Theme)
    (fit : aarect → aarect → aarect) (ops : WidgetOps C)
    (self : overlay_view_widget C) (display_time_point : time_point) (need_layout : Bool) :
    Option (Bool × overlay_view_widget C) :=
  match self.child with
  | none => none
  | some child =>
    let need_layout := need_layout || self.request_relayout
    let base : Widget := { self.toWidget with request_relayout := false }
    let need_redraw := need_layout
    let laid_out : Widget × C :=
      if need_layout then
        let window_rectangle_and_margin := expand base.p_window_rectangle base.p_margin
        let new_window_rectangle_and_margin :=
          fit (aarect.from_extent base.window.currentWindowExtent) window_rectangle_and_margin
        let p_window_rectangle := shrink new_window_rectangle_and_margin base.p_margin
        let p_window_clipping_rectangle := expand p_window_rectangle theme.borderWidth
        ({ base with
            p_window_rectangle := p_window_rectangle
            p_window_clipping_rectangle := p_window_clipping_rectangle },
          ops.set_layout_parameters child p_window_rectangle p_window_clipping_rectangle)
      else
        (base, child)
    match ops.update_layout laid_out.2 display_time_point need_layout with
    | none => none
    | some (child_redraw, child) =>
      let need_redraw := need_redraw || child_redraw
      let (base_redraw, base) := Widget.update_layout laid_out.1 display_time_point need_layout
      some (base_redraw || need_redraw, { toWidget := base, child := some child })

/-- Modelled from the spec: a `TextCell`, the text to measure and its style. -/
structure TextCell where
  text : String
  style : Nat
deriving DecidableEq

/-- Class `toolbar_tab_button_widget`: the members the two passes use. Its
base class `abstract_radio_button_widget` is not among the sources and is taken
to inherit the passes of `Widget`. -/
structure toolbar_tab_button_widget extends Widget where
  label : String
  button_rectangle : aarect
  label_cell : Option TextCell

/-- Member `toolbar_tab_button_widget::update_constraints`. The measurement
`TextCell::preferredExtent` is a parameter. -/
def toolbar_tab_button_widget.update_constraints (theme : Theme)
    (preferredExtent : TextCell → vec) (self : toolbar_tab_button_widget) :
    Bool × toolbar_tab_button_widget :=
  let (super_changed, base) := Widget.update_constraints self.toWidget
  if super_changed then
    let label_cell : TextCell := ⟨self.label, theme.labelStyle⟩
    let minimum_height := (preferredExtent label_cell).y
    let minimum_width := (preferredExtent label_cell).x + 2 * theme.margin
    (true,
      { toWidget := { base with
          p_preferred_size :=
            ⟨⟨minimum_width, minimum_height, 0, 0⟩,
              (float_inf.finite minimum_width, float_inf.infinity)⟩
          p_preferred_base_line := ⟨VerticalAlignment.Middle, -theme.margin⟩ }
        label := self.label
        button_rectangle := self.button_rectangle
        label_cell := some label_cell })
  else
    (false, { self with toWidget := base })

/-- Member `toolbar_tab_button_widget::update_layout`. The accessor
`Widget::rectangle` is a parameter. -/
def toolbar_tab_button_widget.update_layout (theme : Theme) (rectangle : Widget → aarect)
    (self : toolbar_tab_button_widget) (display_time_point : time_point)
    (need_layout : Bool) : Bool × toolbar_tab_button_widget :=
  let need_layout := need_layout || self.request_relayout
  let base : Widget := { self.toWidget with request_relayout := false }
  let button_rectangle :=
    if need_layout then
      let offset := theme.margin + theme.borderWidth
      aarect.from_xywh (rectangle base).x ((rectangle base).y - offset)
        (rectangle base).width ((rectangle base).height + offset)
    else
      self.button_rectangle
  let (super_redraw, base) := Widget.update_layout base display_time_point need_layout
  (super_redraw,
    { toWidget := base
      label := self.label
      button_rectangle := button_rectangle
      label_cell := self.label_cell })

/-- Virtual interface of a `toolbar_tab_button_widget`. -/
def toolbar_tab_button_widget.ops (theme : Theme) (preferredExtent : TextCell → vec)
    (rectangle : Widget → aarect) : WidgetOps toolbar_tab_button_widget where
  update_constraints := fun self => some (self.update_constraints theme preferredExtent)
  update_layout := fun self t need_layout => some (self.update_layout theme rectangle t need_layout)
  set_layout_parameters := fun self window_rectangle window_clipping_rectangle =>
    { self with
      toWidget := self.toWidget.set_layout_parameters window_rectangle window_clipping_rectangle }
  preferred_size := fun self => self.p_preferred_size
  preferred_base_line := fun self => self.p_preferred_base_line

/-- Virtual interface of an `overlay_view_widget` over a child interface. -/
def overlay_view_widget.ops {C : Type} (theme : Theme) (fit : aarect → aarect → aarect)
    (ops : WidgetOps C) : WidgetOps (overlay_view_widget C) where
  update_constraints := fun self => self.update_constraints ops
  update_layout := fun self t need_layout => self.update_layout theme fit ops t need_layout
  set_layout_parameters := fun self window_rectangle window_clipping_rectangle =>
    { self with
      toWidget := self.toWidget.set_layout_parameters window_rectangle window_clipping_rectangle }
  preferred_size := fun self => self.p_preferred_size
  preferred_base_line := fun self => self.p_preferred_base_line

/-- State type of a widget tree built from the two widgets: `n` nested overlay
views around one toolbar tab button. -/
def widget_tree : Nat → Type
  | 0 => toolbar_tab_button_widget
  | n + 1 => overlay_view_widget (widget_tree n)

/-- Virtual interface of a widget tree of depth `n`. -/
def widget_tree.ops (theme : Theme) (fit : aarect → aarect → aarect)
    (preferredExtent : TextCell → vec) (rectangle : Widget → aarect) :
    (n : Nat) → WidgetOps (widget_tree n)
  | 0 => toolbar_tab_button_widget.ops theme preferredExtent rectangle
  | n + 1 => overlay_view_widget.ops theme fit (widget_tree.ops theme fit preferredExtent rectangle n)

/-- Every overlay view of the tree has its child, as `tt_assume(child)`
requires. -/
def widget_tree.complete : (n : Nat) → widget_tree n → Bool
  | 0, _ => true
  | n + 1, w =>
    match overlay_view_widget.child w with
    | none => false
    | some c => widget_tree.complete n c

/-- The window rectangle that `overlay_view_widget::update_layout` assigns when
a relayout is in effect: the rectangle with its margin, fitted into the window
and with the margin taken off again. -/
def overlay_view_widget.fitted_window_rectangle (fit : aarect → aarect → aarect)
    (base : Widget) : aarect :=
  shrink
    (fit (aarect.from_extent base.window.currentWindowExtent)
      (expand base.p_window_rectangle base.p_margin))
    base.p_margin

/-- The clipping rectangle that `overlay_view_widget::update_layout` assigns
when a relayout is in effect. -/
def overlay_view_widget.fitted_clipping_rectangle (theme : Theme)
    (fit : aarect → aarect → aarect) (base : Widget) : aarect :=
  expand (overlay_view_widget.fitted_window_rectangle fit base) theme.borderWidth

/-- All dirty flags `request_reconstrain` of a widget tree are clear and every
overlay view has its child. -/
def widget_tree.settled : (n : Nat) → widget_tree n → Bool
  | 0, w => !(toolbar_tab_button_widget.toWidget w).request_reconstrain
  | n + 1, w =>
    !(overlay_view_widget.toWidget w).request_reconstrain &&
      match overlay_view_widget.child w with
      | none => false
      | some c => widget_tree.settled n c

/-! ## Fixtures for concrete evaluation -/

/-- A window of extent 100 by 50. -/
def fixture_window : Window := ⟨⟨100, 50, 0, 0⟩, true⟩

/-- Theme constants: margin 6, border width 1. -/
def fixture_theme : Theme := ⟨6, 1, 0⟩

/-- A widget of preferred size at least (50, 20) whose rectangle with its
margin fills the window exactly and whose clipping rectangle is its rectangle
expanded by the border width; no dirty flag is set. -/
def fixture_widget : Widget where
  window := fixture_window
  p_draw_layer := 1
  p_semantic_layer := 3
  p_preferred_size := ⟨⟨50, 20, 0, 0⟩, (float_inf.infinity, float_inf.infinity)⟩
  p_preferred_base_line := ⟨VerticalAlignment.Bottom, 0⟩
  p_window_rectangle := ⟨⟨6, 6, 94, 44⟩⟩
  p_window_clipping_rectangle := ⟨⟨5, 5, 95, 45⟩⟩
  p_margin := 6
  request_reconstrain := false
  request_relayout := false

/-- A child widget of preferred size at least (200, 100) that asks to be
reconstrained. -/
def fixture_child : Widget :=
  { fixture_widget with
    p_preferred_size := ⟨⟨200, 100, 0, 0⟩, (float_inf.infinity, float_inf.infinity)⟩
    p_preferred_base_line := ⟨VerticalAlignment.Middle, -6⟩
    request_reconstrain := true }

/-- Virtual interface of a child without state whose passes report no change
and no redraw. -/
def fixture_static_ops : WidgetOps Unit where
  update_constraints := fun c => some (false, c)
  update_layout := fun c _ _ => some (false, c)
  set_layout_parameters := fun c _ _ => c
  preferred_size := fun _ => fixture_widget.p_preferred_size
  preferred_base_line := fun _ => fixture_widget.p_preferred_base_line

/-- A toolbar tab button labelled "Tab" that asks to be reconstrained. -/
def fixture_tab : toolbar_tab_button_widget where
  toWidget := { fixture_widget with request_reconstrain := true }
  label := "Tab"
  button_rectangle := ⟨⟨0, 0, 0, 0⟩⟩
  label_cell := none

/-- A text measurement: ten units per character, height 12. -/
def fixture_preferredExtent (cell : TextCell) : vec :=
  ⟨10 * cell.text.length, 12, 0, 0⟩

/-- The accessor `rectangle()` taken as the window rectangle moved to the
origin. -/
def fixture_rectangle (w : Widget) : aarect :=
  aarect.from_extent w.p_window_rectangle.extent

/-! ## Hit testing and paint order -/

/-- Modelled from the spec: `HitBox`, the answer of a hit test: the widget that
was hit, if any, and its elevation. `Widget` pointers are numbers. -/
structure HitBox where
  widget : Option Nat
  elevation : ℚ
deriving DecidableEq

/-- Member `overlay_view_widget::hitbox_test`; the virtual `hitbox_test` of the
child is a parameter; `none` when `tt_assume(child)` fails. -/
def overlay_view_widget.hitbox_test {C : Type} (child_hitbox_test : C → vec → HitBox)
    (self : overlay_view_widget C) (window_position : vec) : Option HitBox :=
  match self.child with
  | none => none
  | some child => some (child_hitbox_test child window_position)

/-- Modelled from the spec: the part of a `DrawContext` that decides paint
order, the z translation of its `transform`. -/
structure DrawContext where
  depth : ℚ
deriving DecidableEq

/-- Modelled from the spec: `context.transform = mat::T(0, 0, z) * context.transform`,
a translation along z put in front of the transform of the context. -/
def DrawContext.translate_z (context : DrawContext) (z : ℚ) : DrawContext :=
  ⟨z + context.depth⟩

/-- Member `toolbar_tab_button_widget::draw_button`: the context handed to
`drawBoxIncludeBorder`. The member `focus` of the base class is a parameter. -/
def toolbar_tab_button_widget.draw_button (self : toolbar_tab_button_widget) (focus : Bool)
    (context : DrawContext) : DrawContext :=
  if focus && self.window.active then
    context.translate_z (8 / 10)
  else
    context.translate_z (6 / 10)

/-- Member `toolbar_tab_button_widget::draw_label`: the context handed to the
label cell. -/
def toolbar_tab_button_widget.draw_label (_self : toolbar_tab_button_widget)
    (context : DrawContext) : DrawContext :=
  context.translate_z (9 / 10)

/-- Member `toolbar_tab_button_widget::draw_focus_line`: the context handed to
`drawFilledQuad`, `none` when no line is drawn. The result of
`parent_->make_draw_context(context)`, the member `focus` and the outcome of
`*value == true_value` are parameters. -/
def toolbar_tab_button_widget.draw_focus_line (self : toolbar_tab_button_widget)
    (focus value_is_true_value : Bool) (parent_context : DrawContext) : Option DrawContext :=
  if focus && self.window.active && value_is_true_value then
    some (parent_context.translate_z (17 / 10))
  else
    none

/-! ## Vulkan device: buffer layout and device score -/

/-- Modelled from the spec: `TTauri::align(offset, alignment)` on `size_t`, which
is not among the sources: the offset rounded up to a multiple of the
alignment. -/
def align_size_t (offset alignment : Nat) : Nat :=
  ((offset + (alignment - 1)) / alignment * alignment) % 2 ^ 64

/-- The members of `vk::MemoryRequirements` that the layout reads. -/
structure MemoryRequirements where
  size : Nat
  alignment : Nat
  memoryTypeBits : Nat
deriving DecidableEq

/-- Local variables of `Device_vulkan::allocateDeviceMemory(buffers, properties)`. -/
structure AllocateState where
  offsets : List Nat
  sizes : List Nat
  memoryTypeBits : Nat
  offset : Nat
  size : Nat
deriving DecidableEq

/-- One turn of the loop of `Device_vulkan::allocateDeviceMemory(buffers, properties)`
on the memory requirements of the buffer; `size_t` is 64 bits wide. -/
def Device_vulkan.allocateDeviceMemory_step (st : AllocateState) (memoryRequirements : MemoryRequirements) :
    AllocateState :=
  let offset := align_size_t st.offset memoryRequirements.alignment
  { offsets := st.offsets ++ [offset]
    sizes := st.sizes ++ [memoryRequirements.size]
    memoryTypeBits := st.memoryTypeBits ||| memoryRequirements.memoryTypeBits
    offset := offset
    size := (offset + memoryRequirements.size) % 2 ^ 64 }

/-- Member `Device_vulkan::allocateDeviceMemory(buffers, properties)` up to the
allocation itself: the offsets, the sizes, and the size and memory type bits
the memory is allocated with. The buffers are given by their memory
requirements. -/
def Device_vulkan.allocateDeviceMemory (buffers : List MemoryRequirements) : AllocateState :=
  buffers.foldl Device_vulkan.allocateDeviceMemory_step ⟨[], [], 0, 0, 0⟩

/-- The colour spaces of `vk::ColorSpaceKHR` that `score` tells apart. -/
inductive ColorSpaceKHR where
  | eSrgbNonlinear
  | eExtendedSrgbNonlinearEXT
  | eOtherColorSpace
deriving DecidableEq

/-- The formats of `vk::Format` that `score` tells apart. -/
inductive Format where
  | eUndefined
  | eR8G8B8A8Unorm
  | eB8G8R8A8Unorm
  | eR16G16B16A16Sfloat
  | eR8G8B8Unorm
  | eR16G16B16Sfloat
  | eOtherFormat
deriving DecidableEq

/-- Enumeration `vk::PresentModeKHR`. -/
inductive PresentModeKHR where
  | eImmediate
  | eMailbox
  | eFifo
  | eFifoRelaxed
  | eSharedDemandRefresh
  | eSharedContinuousRefresh
deriving DecidableEq

/-- Enumeration `vk::PhysicalDeviceType`. -/
inductive PhysicalDeviceType where
  | eOther
  | eIntegratedGpu
  | eDiscreteGpu
  | eVirtualGpu
  | eCpu
deriving DecidableEq

/-- What `Device_vulkan::score` asks of the physical device and the window:
the outcome of the three requirement checks, the capabilities united over the
queue families found, the surface formats and present modes, and the device
type. -/
structure PhysicalDevice where
  isVulkanWindow : Bool
  hasRequiredFeatures : Bool
  meetsRequiredLimits : Bool
  hasRequiredExtensions : Bool
  handlesGraphicsAndCompute : Bool
  handlesPresent : Bool
  formats : List (ColorSpaceKHR × Format)
  presentModes : List PresentModeKHR
  deviceType : PhysicalDeviceType

/-- Body of the loop over the surface formats in `Device_vulkan::score`: the new
best score; `uint32_t` is 32 bits wide. -/
def surfaceFormat_step (bestSurfaceFormatScore : Nat) (format : ColorSpaceKHR × Format) : Nat :=
  let colorSpaceScore : Option Nat :=
    match format.1 with
    | .eSrgbNonlinear => some 1
    | .eExtendedSrgbNonlinearEXT => some 100
    | .eOtherColorSpace => none
  let formatScore : Option Nat :=
    match format.2 with
    | .eR8G8B8A8Unorm => some 2
    | .eB8G8R8A8Unorm => some 2
    | .eR16G16B16A16Sfloat => some 12
    | .eR8G8B8Unorm => some 1
    | .eR16G16B16Sfloat => some 11
    | .eUndefined => some 2
    | .eOtherFormat => none
  match colorSpaceScore, formatScore with
  | some a, some b =>
    let score := (a + b) % 2 ^ 32
    if score > bestSurfaceFormatScore then score else bestSurfaceFormatScore
  | _, _ => bestSurfaceFormatScore

/-- Body of the loop over the present modes in `Device_vulkan::score`: the new
best score. -/
def surfacePresentMode_step (bestSurfacePresentModeScore : Nat) (presentMode : PresentModeKHR) :
    Nat :=
  let modeScore : Option Nat :=
    match presentMode with
    | .eImmediate => some 1
    | .eFifoRelaxed => some 2
    | .eFifo => some 3
    | .eMailbox => some 1
    | _ => none
  match modeScore with
  | some score =>
    if score > bestSurfacePresentModeScore then score else bestSurfacePresentModeScore
  | none => bestSurfacePresentModeScore

/-- Member `Device_vulkan::score`: `none` when `NonVulkanWindowError` is thrown;
the `uint32_t` score is returned as an `int`. -/
def Device_vulkan.score (device : PhysicalDevice) : Option Int :=
  if !device.isVulkanWindow then
    none
  else if !device.hasRequiredFeatures then
    some (-1)
  else if !device.meetsRequiredLimits then
    some (-1)
  else if !device.hasRequiredExtensions then
    some (-1)
  else if !device.handlesGraphicsAndCompute then
    some (-1)
  else if !device.handlesPresent then
    some 0
  else
    let score : Nat := 0
    let bestSurfaceFormatScore := device.formats.foldl surfaceFormat_step 0
    let score := (score + bestSurfaceFormatScore) % 2 ^ 32
    if bestSurfaceFormatScore == 0 then
      some 0
    else
      let bestSurfacePresentModeScore := device.presentModes.foldl surfacePresentMode_step 0
      let score := (score + bestSurfacePresentModeScore) % 2 ^ 32
      if score < bestSurfacePresentModeScore then
        some 0
      else
        let score :=
          match device.deviceType with
          | .eCpu => (score + 1) % 2 ^ 32
          | .eOther => (score + 1) % 2 ^ 32
          | .eVirtualGpu => (score + 2) % 2 ^ 32
          | .eIntegratedGpu => (score + 3) % 2 ^ 32
          | .eDiscreteGpu => (score + 4) % 2 ^ 32
        some (Int.ofNat score)

/-- A child widget whose rectangle is the square from (10, 10) to (20, 20). -/
def fixture_small_child : Widget :=
  { fixture_widget with p_window_rectangle := ⟨⟨10, 10, 20, 20⟩⟩ }

/-- A hit test of a child that reports itself, as widget 1, exactly on the
points of its window rectangle. -/
def fixture_child_hitbox_test (child : Widget) (window_position : vec) : HitBox :=
  if child.p_window_rectangle.contains window_position then
    ⟨some 1, child.p_draw_layer⟩
  else
    ⟨none, 0⟩

/-- A device that passes every requirement check, offers one sRGB surface
format and no present mode that `score` knows, and is a discrete GPU. -/
def fixture_device : PhysicalDevice where
  isVulkanWindow := true
  hasRequiredFeatures := true
  meetsRequiredLimits := true
  hasRequiredExtensions := true
  handlesGraphicsAndCompute := true
  handlesPresent := true
  formats := [(ColorSpaceKHR.eSrgbNonlinear, Format.eB8G8R8A8Unorm)]
  presentModes := [PresentModeKHR.eSharedDemandRefresh]
  deviceType := PhysicalDeviceType.eDiscreteGpu

/-! ## Float32 rounding of the lane operations

The lanes of the program are `float`. The definitions above compute every lane
operation exactly; the definitions below are the same functions with a
rounding `fl` applied to the result of every lane addition, subtraction and
multiplication. With `fl = float32_round` they are the functions of the
program, with `fl = id` those of exact arithmetic.
-/

/-- Nearest integer of a rational, a tie going to the even neighbour. -/
def round_half_even (q : ℚ) : Int :=
  let f := Int.floor q
  let d := q - f
  if d < 1 / 2 then f
  else if 1 / 2 < d then f + 1
  else if f % 2 = 0 then f
  else f + 1

/-- Floor of the binary logarithm of a positive number, by repeated halving;
the first argument bounds the number of halvings. -/
def log2_floor : Nat → Nat → Nat
  | 0, _ => 0
  | fuel + 1, n => if n < 2 then 0 else log2_floor fuel (n / 2) + 1

/-- Binary exponent of a nonzero value as a float32: the `e` with
`2 ^ e ≤ |q| < 2 ^ (e + 1)`, and `-126` for the subnormal range. -/
def float32_exponent (q : ℚ) : Int :=
  let n : Nat := q.num.natAbs
  let d : Nat := q.den
  let k : Int := (log2_floor 4096 n : Int) - (log2_floor 4096 d : Int)
  let e : Int := if |q| < 2 ^ k then k - 1 else k
  max e (-126)

/-- IEEE 754 binary32 rounding of an exact result: to the nearest value with a
24 bit significand, ties to even. Overflow to infinity is not modelled. -/
def float32_round (q : ℚ) : ℚ :=
  if q = 0 then 0
  else
    let ulp : ℚ := 2 ^ (float32_exponent q - 23)
    round_half_even (q / ulp) * ulp

/-- Lane-wise `operator+` of `vec.hpp` with every lane sum rounded. -/
def vec.add_fl (fl : ℚ → ℚ) (a b : vec) : vec :=
  ⟨fl (a.x + b.x), fl (a.y + b.y), fl (a.z + b.z), fl (a.w + b.w)⟩

/-- Lane-wise `operator-` of `vec.hpp` with every lane difference rounded. -/
def vec.sub_fl (fl : ℚ → ℚ) (a b : vec) : vec :=
  ⟨fl (a.x - b.x), fl (a.y - b.y), fl (a.z - b.z), fl (a.w - b.w)⟩

/-- Friend `expand(lhs, rhs)` with rounded lane operations. -/
def expand_fl (fl : ℚ → ℚ) (lhs : aarect) (rhs : ℚ) : aarect :=
  let _000r := _mm_set_ss rhs
  let _00rr := _mm_permute_ps _000r (_MM_SHUFFLE 1 1 0 0)
  let _rr00 := _mm_permute_ps _000r (_MM_SHUFFLE 0 0 1 1)
  aarect.m128 (vec.add_fl fl (vec.sub_fl fl lhs.v _00rr) _rr00)

/-- Friend `shrink(lhs, rhs)` with rounded lane operations. -/
def shrink_fl (fl : ℚ → ℚ) (lhs : aarect) (rhs : ℚ) : aarect :=
  expand_fl fl lhs (-rhs)

/-- Member `aarect::extent()` with rounded lane operations. -/
def aarect.extent_fl (fl : ℚ → ℚ) (r : aarect) : vec := (vec.sub_fl fl r.v.zwzw r.v).xy00

/-- Member `aarect::width()` with rounded lane operations. -/
def aarect.width_fl (fl : ℚ → ℚ) (r : aarect) : ℚ := (vec.sub_fl fl r.v.zwzw r.v).x

/-- Member `aarect::height()` with rounded lane operations. -/
def aarect.height_fl (fl : ℚ → ℚ) (r : aarect) : ℚ := (vec.sub_fl fl r.v.zwzw r.v).y

/-- Constructor `aarect(position, extent)` with rounded lane operations. -/
def aarect.from_position_extent_fl (fl : ℚ → ℚ) (position extent : vec) : aarect :=
  ⟨vec.add_fl fl position.xyxy extent._00xy⟩

/-- Friend `align(outside, inside, alignment)` with rounded lane operations. -/
def align_fl (fl : ℚ → ℚ) (outside inside : aarect) (alignment : Alignment) : Option aarect :=
  let x : Option ℚ :=
    if alignment.horizontal = HorizontalAlignment.Left then
      some outside.p1.x
    else if alignment.horizontal = HorizontalAlignment.Right then
      some (fl (outside.p2.x - inside.width_fl fl))
    else if alignment.horizontal = HorizontalAlignment.Center then
      some (fl (fl (outside.p1.x + fl (outside.width_fl fl * (1 / 2))) -
        fl (inside.width_fl fl * (1 / 2))))
    else
      none
  let y : Option ℚ :=
    if alignment.vertical = VerticalAlignment.Bottom then
      some outside.p1.y
    else if alignment.vertical = VerticalAlignment.Top then
      some (fl (outside.p2.y - inside.height_fl fl))
    else if alignment.vertical = VerticalAlignment.Middle then
      some (fl (fl (outside.p1.y + fl (outside.height_fl fl * (1 / 2))) -
        fl (inside.height_fl fl * (1 / 2))))
    else
      none
  match x, y with
  | some x, some y =>
    some (aarect.from_position_extent_fl fl (vec.point x y) (inside.extent_fl fl))
  | _, _ => none

/-- Member `overlay_view_widget::update_layout` with rounded lane operations
and with the pass `Widget::update_layout` of the base class as a parameter. -/
def overlay_view_widget.update_layout_over {C : Type} (fl : ℚ → ℚ)
    (base_update_layout : Widget → time_point → Bool → Bool × Widget) (theme : Theme)
    (fit : aarect → aarect → aarect) (ops : WidgetOps C)
    (self : overlay_view_widget C) (display_time_point : time_point) (need_layout : Bool) :
    Option (Bool × overlay_view_widget C) :=
  match self.child with
  | none => none
  | some child =>
    let need_layout := need_layout || self.request_relayout
    let base : Widget := { self.toWidget with request_relayout := false }
    let need_redraw := need_layout
    let laid_out : Widget × C :=
      if need_layout then
        let window_rectangle_and_margin := expand_fl fl base.p_window_rectangle base.p_margin
        let new_window_rectangle_and_margin :=
          fit (aarect.from_extent base.window.currentWindowExtent) window_rectangle_and_margin
        let p_window_rectangle := shrink_fl fl new_window_rectangle_and_margin base.p_margin
        let p_window_clipping_rectangle := expand_fl fl p_window_rectangle theme.borderWidth
        ({ base with
            p_window_rectangle := p_window_rectangle
            p_window_clipping_rectangle := p_window_clipping_rectangle },
          ops.set_layout_parameters child p_window_rectangle p_window_clipping_rectangle)
      else
        (base, child)
    match ops.update_layout laid_out.2 display_time_point need_layout with
    | none => none
    | some (child_redraw, child) =>
      let need_redraw := need_redraw || child_redraw
      let (base_redraw, base) := base_update_layout laid_out.1 display_time_point need_layout
      some (base_redraw || need_redraw, { toWidget := base, child := some child })

/-- The float 0.1f. -/
def fixture_0_1f : ℚ := float32_round (1 / 10)

/-- The float 0.7f. -/
def fixture_0_7f : ℚ := float32_round (7 / 10)

/-- The float 1.9f. -/
def fixture_1_9f : ℚ := float32_round (19 / 10)

/-- A widget of margin 0.7f in a window of extent 1.9f by 1.9f, its rectangle
reaching beyond the window on every side. -/
def fixture_float_widget : Widget :=
  { fixture_widget with
    window := ⟨⟨fixture_1_9f, fixture_1_9f, 0, 0⟩, true⟩
    p_window_rectangle := ⟨⟨-10, -10, 10, 10⟩⟩
    p_margin := fixture_0_7f }

/-- A widget of margin 6 in the window of extent 100 by 50 whose rectangle
reaches beyond the right and the top edge of the window. -/
def fixture_offscreen_widget : Widget :=
  { fixture_widget with p_window_rectangle := ⟨⟨80, 30, 120, 48⟩⟩ }

/-! ## Helper lemmas on lane masks -/

theorem movemask_low (b0 b1 b2 b3 : Bool) :
    (((movemask b0 b1 b2 b3) &&& 0b0011) == 0b0011) = (b0 && b1) := by
  cases b0 <;> cases b1 <;> cases b2 <;> cases b3 <;> rfl

theorem movemask_high (b0 b1 b2 b3 : Bool) :
    (((movemask b0 b1 b2 b3) &&& 0b1100) == 0b1100) = (b2 && b3) := by
  cases b0 <;> cases b1 <;> cases b2 <;> cases b3 <;> rfl

theorem movemask_hex_0011 (b0 b1 b2 b3 : Bool) :
    (((movemask b0 b1 b2 b3) &&& 0x0011) != 0) = b0 := by
  cases b0 <;> cases b1 <;> cases b2 <;> cases b3 <;> rfl

theorem movemask_hex_1100 (b0 b1 b2 b3 : Bool) :
    (((movemask b0 b1 b2 b3) &&& 0x1100) != 0) = false := by
  cases b0 <;> cases b1 <;> cases b2 <;> cases b3 <;> rfl

theorem contains_iff (r : aarect) (p : vec) :
    r.contains p = true ↔ r.v.x ≤ p.x ∧ p.x ≤ r.v.z ∧ r.v.y ≤ p.y ∧ p.y ≤ r.v.w := by
  unfold aarect.contains vec.ge vec.le
  rw [movemask_low, movemask_high]
  simp only [vec.xyxy, Bool.and_eq_true, decide_eq_true_eq, ge_iff_le]
  tauto

theorem overlaps_eq (lhs rhs : aarect) :
    overlaps lhs rhs = !decide (lhs.v.x > rhs.v.z) := by
  unfold overlaps vec.gt vec.lt
  simp only [movemask_hex_0011, movemask_hex_1100, vec.zwxy]
  cases decide (lhs.v.x > rhs.v.z) <;> simp

theorem or_v (a b : aarect) :
    (a.or b).v = ⟨min a.v.x b.v.x, min a.v.y b.v.y, max a.v.z b.v.z, max a.v.w b.v.w⟩ := by
  rfl

theorem expand_v (r : aarect) (m : ℚ) :
    (expand r m).v = ⟨r.v.x - m, r.v.y - m, r.v.z + m, r.v.w + m⟩ := by
  have h1 : _mm_permute_ps (_mm_set_ss m) (_MM_SHUFFLE 1 1 0 0) = ⟨m, m, 0, 0⟩ := rfl
  have h2 : _mm_permute_ps (_mm_set_ss m) (_MM_SHUFFLE 0 0 1 1) = ⟨0, 0, m, m⟩ := rfl
  simp [expand, aarect.m128, h1, h2, vec.sub, vec.add]

theorem corner_0 (r : aarect) : r.corner 0 = ⟨r.v.x, r.v.y, 0, 1⟩ := rfl

theorem corner_1 (r : aarect) : r.corner 1 = ⟨r.v.z, r.v.y, 0, 1⟩ := rfl

theorem corner_2 (r : aarect) : r.corner 2 = ⟨r.v.x, r.v.w, 0, 1⟩ := rfl

theorem corner_3 (r : aarect) : r.corner 3 = ⟨r.v.z, r.v.w, 0, 1⟩ := rfl

theorem p1_v (r : aarect) : r.p1 = ⟨r.v.x, r.v.y, 0, 1⟩ := rfl

theorem p2_v (r : aarect) : r.p2 = ⟨r.v.z, r.v.w, 0, 1⟩ := rfl

theorem width_v (r : aarect) : r.width = r.v.z - r.v.x := rfl

theorem height_v (r : aarect) : r.height = r.v.w - r.v.y := rfl

theorem align_eq (outside inside : aarect) (alignment : Alignment) :
    align outside inside alignment =
      some (aarect.from_position_extent
        (vec.point
          (match alignment.horizontal with
            | .Left => outside.v.x
            | .Right => outside.v.z - inside.width
            | .Center => (outside.v.x + outside.width * (1 / 2)) - inside.width * (1 / 2))
          (match alignment.vertical with
            | .Bottom => outside.v.y
            | .Top => outside.v.w - inside.height
            | .Middle => (outside.v.y + outside.height * (1 / 2)) - inside.height * (1 / 2)))
        inside.extent) := by
  cases alignment <;> rfl

theorem extent_v (r : aarect) : r.extent = ⟨r.v.z - r.v.x, r.v.w - r.v.y, 0, 0⟩ := rfl

theorem from_position_extent_v (x y : ℚ) (e : vec) :
    (aarect.from_position_extent (vec.point x y) e).v = ⟨x, y, x + e.x, y + e.y⟩ := by
  simp [aarect.from_position_extent, vec.point, vec.xyxy, vec._00xy, vec.add]

/-! ## Claims on containment and overlap -/

/-- C1, the claim refuted at its own example: the rectangle (x=0, y=0, w=10, h=10)
contains the point (10, 5), although 10 is not below the right edge 10. -/
theorem contains_right_edge_point :
    (aarect.from_xywh 0 0 10 10).contains (vec.point 10 5) = true ∧
      ¬ ((vec.point 10 5).x < (aarect.from_xywh 0 0 10 10).p2.x) := by
  constructor
  · rw [contains_iff]; norm_num [aarect.from_xywh, vec.point]
  · norm_num [aarect.from_xywh, vec.point, p2_v]

/-- C1, amended: `contains` is true exactly when the point lies between the
minimum and the maximum corner on both axes with all four edges inclusive; the
rectangle (0, 0, 10, 10) contains both (10, 5) and (9.999, 5), and does not
contain (10.001, 5). -/
theorem contains_closed_bounds :
    (∀ (r : aarect) (p : vec), r.contains p = true ↔
        (r.p1.x ≤ p.x ∧ p.x ≤ r.p2.x) ∧ (r.p1.y ≤ p.y ∧ p.y ≤ r.p2.y)) ∧
      (aarect.from_xywh 0 0 10 10).contains (vec.point 10 5) = true ∧
      (aarect.from_xywh 0 0 10 10).contains (vec.point (9999 / 1000) 5) = true ∧
      (aarect.from_xywh 0 0 10 10).contains (vec.point (10001 / 1000) 5) = false := by
  refine ⟨?_, ?_, ?_, ?_⟩
  · intro r p
    rw [contains_iff]
    show _ ↔ (r.v.x ≤ p.x ∧ p.x ≤ r.v.z) ∧ (r.v.y ≤ p.y ∧ p.y ≤ r.v.w)
    tauto
  · rw [contains_iff]; norm_num [aarect.from_xywh, vec.point]
  · rw [contains_iff]; norm_num [aarect.from_xywh, vec.point]
  · rw [← Bool.not_eq_true, contains_iff]; norm_num [aarect.from_xywh, vec.point]

/-- C2, the code at the failing input: the rectangles (0, 0, 10, 10) and
(20, 0, 10, 10) are separated on the x axis (right edge 10 of the first is left
of the left edge 20 of the second), and `overlaps` still answers true. -/
theorem overlaps_ignores_right_separation :
    (aarect.from_xywh 0 0 10 10).p2.x < (aarect.from_xywh 20 0 10 10).p1.x ∧
      overlaps (aarect.from_xywh 0 0 10 10) (aarect.from_xywh 20 0 10 10) = true := by
  constructor
  · norm_num [aarect.from_xywh, p1_v, p2_v]
  · rw [overlaps_eq]; norm_num [aarect.from_xywh]

/-- C3, the code at the failing input: for the rectangles (0, 0, 1, 1) and
(5, 0, 1, 1) `overlaps` answers true in one argument order and false in the
other. -/
theorem overlaps_order_dependent :
    overlaps (aarect.from_xywh 0 0 1 1) (aarect.from_xywh 5 0 1 1) = true ∧
      overlaps (aarect.from_xywh 5 0 1 1) (aarect.from_xywh 0 0 1 1) = false := by
  constructor
  · rw [overlaps_eq]; norm_num [aarect.from_xywh]
  · rw [overlaps_eq]; norm_num [aarect.from_xywh]

/-! ## Claims on the union -/

/-- C4: the union has as minimum corner the component-wise minimum of the two
minimum corners and as maximum corner the component-wise maximum of the two
maximum corners; (0, 0, 10, 10) | (5, 5, 10, 10) is (0, 0, 15, 15). -/
theorem or_corners :
    (∀ a b : aarect,
        (a.or b).p1 = vec.point (min a.p1.x b.p1.x) (min a.p1.y b.p1.y) ∧
        (a.or b).p2 = vec.point (max a.p2.x b.p2.x) (max a.p2.y b.p2.y)) ∧
      (aarect.from_xywh 0 0 10 10).or (aarect.from_xywh 5 5 10 10) =
        aarect.from_xywh 0 0 15 15 := by
  refine ⟨fun a b => ⟨rfl, rfl⟩, ?_⟩
  rw [aarect.mk.injEq, or_v]; norm_num [aarect.from_xywh]

/-- C5: the rectangle union is commutative and associative. -/
theorem or_comm_assoc (a b c : aarect) :
    a.or b = b.or a ∧ (a.or b).or c = a.or (b.or c) := by
  constructor
  · rw [aarect.mk.injEq, or_v, or_v, vec.mk.injEq]
    exact ⟨min_comm _ _, min_comm _ _, max_comm _ _, max_comm _ _⟩
  · rw [aarect.mk.injEq, or_v, or_v, or_v, or_v, vec.mk.injEq]
    exact ⟨min_assoc _ _ _, min_assoc _ _ _, max_assoc _ _ _, max_assoc _ _ _⟩

/-- C6, the claim refuted: with a = (x=0, y=0, w=-1, h=1), a rectangle of
negative width, and b = (0, 0, 1, 1), the union a | b does not contain the
right-bottom corner `corner<1>()` of a. -/
theorem or_misses_corner_of_negative_width :
    ((aarect.from_xywh 0 0 (-1) 1).or (aarect.from_xywh 0 0 1 1)).contains
      ((aarect.from_xywh 0 0 (-1) 1).corner 1) = false := by
  rw [← Bool.not_eq_true, contains_iff, or_v, corner_1]
  norm_num [aarect.from_xywh]

/-- C6, amended: for all rectangles a and b of non-negative width and height,
the union a | b contains each of the four corners of a and each of the four
corners of b. -/
theorem or_contains_corners (a b : aarect)
    (haw : 0 ≤ a.width) (hah : 0 ≤ a.height) (hbw : 0 ≤ b.width) (hbh : 0 ≤ b.height)
    (I : Fin 4) :
    (a.or b).contains (a.corner I) = true ∧ (a.or b).contains (b.corner I) = true := by
  have h1 : a.v.x ≤ a.v.z := sub_nonneg.mp haw
  have h2 : a.v.y ≤ a.v.w := sub_nonneg.mp hah
  have h3 : b.v.x ≤ b.v.z := sub_nonneg.mp hbw
  have h4 : b.v.y ≤ b.v.w := sub_nonneg.mp hbh
  rw [contains_iff, contains_iff, or_v]
  fin_cases I <;>
    simp [corner_0, corner_1, corner_2, corner_3, h1, h2, h3, h4, le_max_iff, min_le_iff]

/-- C6, amended, at the rectangles (0, 0, 10, 10) and (5, 5, 10, 10) and the
right-top corner. -/
theorem or_contains_corners_witness :
    0 ≤ (aarect.from_xywh 0 0 10 10).width ∧ 0 ≤ (aarect.from_xywh 0 0 10 10).height ∧
      0 ≤ (aarect.from_xywh 5 5 10 10).width ∧ 0 ≤ (aarect.from_xywh 5 5 10 10).height ∧
      ((aarect.from_xywh 0 0 10 10).or (aarect.from_xywh 5 5 10 10)).contains
        ((aarect.from_xywh 0 0 10 10).corner 3) = true ∧
      ((aarect.from_xywh 0 0 10 10).or (aarect.from_xywh 5 5 10 10)).contains
        ((aarect.from_xywh 5 5 10 10).corner 3) = true :=
  have haw : 0 ≤ (aarect.from_xywh 0 0 10 10).width := by
    norm_num [aarect.from_xywh, width_v]
  have hah : 0 ≤ (aarect.from_xywh 0 0 10 10).height := by
    norm_num [aarect.from_xywh, height_v]
  have hbw : 0 ≤ (aarect.from_xywh 5 5 10 10).width := by
    norm_num [aarect.from_xywh, width_v]
  have hbh : 0 ≤ (aarect.from_xywh 5 5 10 10).height := by
    norm_num [aarect.from_xywh, height_v]
  ⟨haw, hah, hbw, hbh,
    or_contains_corners (aarect.from_xywh 0 0 10 10) (aarect.from_xywh 5 5 10 10)
      haw hah hbw hbh 3⟩

/-! ## Claims on expand and shrink -/

/-- C7: for every rectangle r and every margin m >= 0, shrinking the expanded
rectangle by the same margin gives r back (exact arithmetic). -/
theorem shrink_expand_roundtrip (r : aarect) (m : ℚ) (_hm : 0 ≤ m) :
    shrink (expand r m) m = r := by
  unfold shrink
  rw [aarect.mk.injEq, expand_v, expand_v, vec.mk.injEq]
  refine ⟨?_, ?_, ?_, ?_⟩ <;> ring

/-- C7 at the rectangle (1, 2, 30, 40) and the margin 3. -/
theorem shrink_expand_roundtrip_witness :
    (0 : ℚ) ≤ 3 ∧ shrink (expand (aarect.from_xywh 1 2 30 40) 3) 3 = aarect.from_xywh 1 2 30 40 :=
  ⟨by norm_num, shrink_expand_roundtrip (aarect.from_xywh 1 2 30 40) 3 (by norm_num)⟩

theorem expand_fl_id (r : aarect) (m : ℚ) : expand_fl id r m = expand r m := rfl

theorem shrink_fl_id (r : aarect) (m : ℚ) : shrink_fl id r m = shrink r m := rfl

theorem align_fl_id (outside inside : aarect) (alignment : Alignment) :
    align_fl id outside inside alignment = align outside inside alignment := rfl

/-- C8, the claim refuted on float32 lanes: expanding the rectangle with
corners (0, 0) and (16777216, 1) by the margin 1 gives the right edge 16777216
and not 16777217, and its width is 16777216, the width before, and not 2
more. -/
theorem expand_float32_keeps_width :
    (expand_fl float32_round ⟨⟨0, 0, 16777216, 1⟩⟩ 1).v = ⟨-1, -1, 16777216, 2⟩ ∧
      (⟨⟨0, 0, 16777216, 1⟩⟩ : aarect).width_fl float32_round = 16777216 ∧
      (expand_fl float32_round ⟨⟨0, 0, 16777216, 1⟩⟩ 1).width_fl float32_round = 16777216 := by
  decide!

/-- C8, amended: in exact arithmetic, for every rectangle r = (x1, y1, x2, y2)
and every margin m of any sign, expand(r, m) is (x1 - m, y1 - m, x2 + m, y2 + m)
and its width and height are those of r plus 2 * m; under any rounding of the
lane operations the edges of expand(r, m) are the rounded lanes of
(r - (m, m, 0, 0)) + (0, 0, m, m), which without rounding is the exact
rectangle; and shrink(r, m) is expand(r, -m) with and without rounding. -/
theorem expand_moves_four_edges (fl : ℚ → ℚ) (r : aarect) (m : ℚ) :
    (expand r m = aarect.m128 ⟨r.p1.x - m, r.p1.y - m, r.p2.x + m, r.p2.y + m⟩ ∧
      (expand r m).width = r.width + 2 * m ∧
      (expand r m).height = r.height + 2 * m ∧
      shrink r m = expand r (-m)) ∧
    (expand_fl fl r m).v =
      ⟨fl (fl (r.p1.x - m) + 0), fl (fl (r.p1.y - m) + 0),
        fl (fl (r.p2.x - 0) + m), fl (fl (r.p2.y - 0) + m)⟩ ∧
    expand_fl id r m = expand r m ∧
    shrink_fl fl r m = expand_fl fl r (-m) := by
  refine ⟨⟨?_, ?_, ?_, rfl⟩, rfl, rfl, rfl⟩
  · rw [aarect.mk.injEq, expand_v]; rfl
  · rw [width_v, width_v, expand_v]; ring
  · rw [height_v, height_v, expand_v]; ring

/-! ## Claims on alignment -/

/-- C9, the claim refuted on float32 lanes: aligning an inside of width and
height 0.1f top right in the outside (0, 0, 100, 50) returns a rectangle whose
width, read back as the rounded difference of its edges, is 13107/131072
(0.09999847), not 0.1f. -/
theorem align_float32_changes_extent :
    (⟨⟨0, 0, fixture_0_1f, fixture_0_1f⟩⟩ : aarect).width_fl float32_round =
        13421773 / 134217728 ∧
      (align_fl float32_round ⟨⟨0, 0, 100, 50⟩⟩ ⟨⟨0, 0, fixture_0_1f, fixture_0_1f⟩⟩
          Alignment.TopRight).map (fun r => r.width_fl float32_round) =
        some (13107 / 131072) ∧
      (13107 / 131072 : ℚ) ≠ 13421773 / 134217728 := by
  decide!

/-- C9, amended: in exact arithmetic, for all rectangles outside and inside and
each of the nine alignments, align returns a rectangle, and its extent, width
and height are those of inside; the exact function is align with the rounding
of the lane operations left out. -/
theorem align_keeps_extent (outside inside : aarect) (alignment : Alignment) :
    (∃ r : aarect, align outside inside alignment = some r ∧
      r.extent = inside.extent ∧ r.width = inside.width ∧ r.height = inside.height) ∧
    align_fl id outside inside alignment = align outside inside alignment := by
  refine ⟨⟨_, align_eq outside inside alignment, ?_, ?_, ?_⟩, rfl⟩
  · simp only [extent_v, from_position_extent_v, vec.mk.injEq]
    refine ⟨?_, ?_, trivial, trivial⟩ <;> ring
  · simp only [width_v, extent_v, from_position_extent_v]; ring
  · simp only [height_v, extent_v, from_position_extent_v]; ring

theorem or_vec_eq (r : aarect) (p : vec) (hp : p.w = 1) :
    r.or_vec p = some ⟨⟨min r.v.x p.x, min r.v.y p.y, max r.v.z p.x, max r.v.w p.y⟩⟩ := by
  unfold aarect.or_vec
  rw [if_pos hp]
  rfl

theorem scale_v (r : aarect) (s : ℚ) :
    (scale r s).v =
      ⟨r.v.x - ((r.v.z - r.v.x) * s - (r.v.z - r.v.x)) * (1 / 2),
       r.v.y - ((r.v.w - r.v.y) * s - (r.v.w - r.v.y)) * (1 / 2),
       r.v.z + ((r.v.z - r.v.x) * s - (r.v.z - r.v.x)) * (1 / 2),
       r.v.w + ((r.v.w - r.v.y) * s - (r.v.w - r.v.y)) * (1 / 2)⟩ := by
  rfl

/-- C11: for a rectangle with minimum corner (x1, y1) and maximum corner
(x2, y2), corner<0> is (x1, y1), corner<1> is (x2, y1), corner<2> is (x1, y2)
and corner<3> is (x2, y2), each as a homogeneous point; p1 is corner<0> and p2
is corner<3>. The rectangle is given by its register and by the constructor
from position and size. -/
theorem corner_convention (x1 y1 x2 y2 : ℚ) :
    (aarect.m128 ⟨x1, y1, x2, y2⟩).corner 0 = vec.point x1 y1 ∧
      (aarect.m128 ⟨x1, y1, x2, y2⟩).corner 1 = vec.point x2 y1 ∧
      (aarect.m128 ⟨x1, y1, x2, y2⟩).corner 2 = vec.point x1 y2 ∧
      (aarect.m128 ⟨x1, y1, x2, y2⟩).corner 3 = vec.point x2 y2 ∧
      (aarect.m128 ⟨x1, y1, x2, y2⟩).p1 = (aarect.m128 ⟨x1, y1, x2, y2⟩).corner 0 ∧
      (aarect.m128 ⟨x1, y1, x2, y2⟩).p2 = (aarect.m128 ⟨x1, y1, x2, y2⟩).corner 3 ∧
      (aarect.from_xywh x1 y1 (x2 - x1) (y2 - y1)).corner 0 = vec.point x1 y1 ∧
      (aarect.from_xywh x1 y1 (x2 - x1) (y2 - y1)).corner 3 = vec.point x2 y2 := by
  refine ⟨rfl, rfl, rfl, rfl, rfl, rfl, rfl, ?_⟩
  rw [corner_3]
  simp [aarect.from_xywh, vec.point]

/-- C12: for every rectangle r and every point p (a vector with w = 1), the
point union r | p exists, r |= p assigns the same rectangle, it contains p, and
its bounds include the bounds of r. -/
theorem or_vec_contains_point (r : aarect) (p : vec) (hp : p.w = 1) :
    ∃ u : aarect, r.or_vec p = some u ∧ r.or_assign_vec p = some u ∧
      u.contains p = true ∧
      u.p1.x ≤ r.p1.x ∧ u.p1.y ≤ r.p1.y ∧ r.p2.x ≤ u.p2.x ∧ r.p2.y ≤ u.p2.y := by
  refine ⟨_, or_vec_eq r p hp, or_vec_eq r p hp, ?_, ?_, ?_, ?_, ?_⟩
  · rw [contains_iff]
    exact ⟨min_le_right _ _, le_max_right _ _, min_le_right _ _, le_max_right _ _⟩
  · exact min_le_left _ _
  · exact min_le_left _ _
  · exact le_max_left _ _
  · exact le_max_left _ _

/-- C12 at the rectangle (0, 0, 10, 10) and the point (20, 5) outside it. -/
theorem or_vec_contains_point_witness :
    (vec.point 20 5).w = 1 ∧
      ∃ u : aarect, (aarect.from_xywh 0 0 10 10).or_vec (vec.point 20 5) = some u ∧
        (aarect.from_xywh 0 0 10 10).or_assign_vec (vec.point 20 5) = some u ∧
        u.contains (vec.point 20 5) = true ∧
        u.p1.x ≤ (aarect.from_xywh 0 0 10 10).p1.x ∧
        u.p1.y ≤ (aarect.from_xywh 0 0 10 10).p1.y ∧
        (aarect.from_xywh 0 0 10 10).p2.x ≤ u.p2.x ∧
        (aarect.from_xywh 0 0 10 10).p2.y ≤ u.p2.y :=
  ⟨rfl, or_vec_contains_point (aarect.from_xywh 0 0 10 10) (vec.point 20 5) rfl⟩

/-- C13: for every rectangle r and every factor s, scale(r, s) has width
s * r.width and height s * r.height and the same centre (midpoint of the two
corners) as r, in exact arithmetic; scale(r, 1) is r. -/
theorem scale_about_centre (r : aarect) (s : ℚ) :
    (scale r s).width = s * r.width ∧
      (scale r s).height = s * r.height ∧
      ((scale r s).p1.x + (scale r s).p2.x) / 2 = (r.p1.x + r.p2.x) / 2 ∧
      ((scale r s).p1.y + (scale r s).p2.y) / 2 = (r.p1.y + r.p2.y) / 2 ∧
      scale r 1 = r := by
  refine ⟨?_, ?_, ?_, ?_, ?_⟩
  · simp only [width_v, scale_v]; ring
  · simp only [height_v, scale_v]; ring
  · simp only [p1_v, p2_v, scale_v]; ring
  · simp only [p1_v, p2_v, scale_v]; ring
  · rw [aarect.mk.injEq, scale_v, vec.mk.injEq]
    refine ⟨?_, ?_, ?_, ?_⟩ <;> ring

/-! ## Helper lemmas on the widget passes -/

theorem overlay_update_constraints_eq {C : Type} (ops : WidgetOps C) (b : Widget) (c : C)
    (cb : Bool) (c1 : C) (h : ops.update_constraints c = some (cb, c1)) :
    overlay_view_widget.update_constraints ops ⟨b, some c⟩ =
      some (cb || b.request_reconstrain,
        ⟨if cb || b.request_reconstrain then
            { b with
              request_reconstrain := false
              p_preferred_size := ops.preferred_size c1
              p_preferred_base_line := ops.preferred_base_line c1 }
          else { b with request_reconstrain := false },
          some c1⟩) := by
  unfold overlay_view_widget.update_constraints Widget.update_constraints
  simp only [h]
  cases cb <;> cases b.request_reconstrain <;> rfl

theorem overlay_update_layout_eq {C : Type} (theme : Theme) (fit : aarect → aarect → aarect)
    (ops : WidgetOps C) (b : Widget) (c : C) (t : time_point) (need_layout : Bool)
    (cr : Bool) (c1 : C)
    (h : ops.update_layout
        (if need_layout || b.request_relayout then
          ops.set_layout_parameters c (overlay_view_widget.fitted_window_rectangle fit b)
            (overlay_view_widget.fitted_clipping_rectangle theme fit b)
        else c) t (need_layout || b.request_relayout) = some (cr, c1)) :
    overlay_view_widget.update_layout theme fit ops ⟨b, some c⟩ t need_layout =
      some ((need_layout || b.request_relayout) || cr,
        ⟨if need_layout || b.request_relayout then
            { b with
              request_relayout := false
              p_window_rectangle := overlay_view_widget.fitted_window_rectangle fit b
              p_window_clipping_rectangle :=
                overlay_view_widget.fitted_clipping_rectangle theme fit b }
          else { b with request_relayout := false },
          some c1⟩) := by
  unfold overlay_view_widget.update_layout Widget.update_layout
  cases hn : (need_layout || b.request_relayout)
  · rw [hn] at h
    simp only [hn, Bool.false_eq_true, if_false] at h ⊢
    simp [h]
  · rw [hn] at h
    simp only [hn, if_true, overlay_view_widget.fitted_window_rectangle,
      overlay_view_widget.fitted_clipping_rectangle] at h ⊢
    simp [h]

theorem tab_update_constraints_eq (theme : Theme) (preferredExtent : TextCell → vec)
    (s : toolbar_tab_button_widget) :
    s.update_constraints theme preferredExtent =
      if s.request_reconstrain then
        (true,
          { toWidget := { s.toWidget with
              request_reconstrain := false
              p_preferred_size :=
                ⟨⟨(preferredExtent ⟨s.label, theme.labelStyle⟩).x + 2 * theme.margin,
                    (preferredExtent ⟨s.label, theme.labelStyle⟩).y, 0, 0⟩,
                  (float_inf.finite
                      ((preferredExtent ⟨s.label, theme.labelStyle⟩).x + 2 * theme.margin),
                    float_inf.infinity)⟩
              p_preferred_base_line := ⟨VerticalAlignment.Middle, -theme.margin⟩ }
            label := s.label
            button_rectangle := s.button_rectangle
            label_cell := some ⟨s.label, theme.labelStyle⟩ })
      else
        (false, { s with toWidget := { s.toWidget with request_reconstrain := false } }) := by
  unfold toolbar_tab_button_widget.update_constraints Widget.update_constraints
  cases s.request_reconstrain <;> rfl

/-! ## Claims on the overlay view and the constraint pass -/

/-- C14: every overlay_view_widget constructed with a parent has draw layer
equal to the draw layer of the parent plus 20 and semantic layer 0, whatever
the base constructor did and whatever the semantic layer of the parent is. -/
theorem overlay_ctor_layers (C : Type) (Widget_ctor : Window → Option Widget → Widget)
    (window : Window) (parent : Widget) :
    (overlay_view_widget.ctor Widget_ctor window (some parent) :
        overlay_view_widget C).p_draw_layer = parent.p_draw_layer + 20 ∧
      (overlay_view_widget.ctor Widget_ctor window (some parent) :
        overlay_view_widget C).p_semantic_layer = 0 :=
  ⟨rfl, rfl⟩

/-- C15: whenever overlay_view_widget::update_constraints runs and its child
reports changed = true, the call returns true and the preferred size and the
preferred base line of the overlay afterwards are those of the child after its
own pass, whatever they were before. -/
theorem overlay_takes_child_preferences {C : Type} (ops : WidgetOps C) (b : Widget)
    (c c1 : C) (hchild : ops.update_constraints c = some (true, c1)) :
    ∃ w1 : overlay_view_widget C,
      overlay_view_widget.update_constraints ops ⟨b, some c⟩ = some (true, w1) ∧
      w1.p_preferred_size = ops.preferred_size c1 ∧
      w1.p_preferred_base_line = ops.preferred_base_line c1 ∧
      w1.child = some c1 := by
  refine ⟨_, overlay_update_constraints_eq ops b c true c1 hchild, ?_, ?_, ?_⟩ <;> simp

/-- C15 at an overlay of preferred size at least (50, 20) around a child of
preferred size at least (200, 100) that reports a change: afterwards the
overlay has preferred size at least (200, 100). -/
theorem overlay_takes_child_preferences_witness :
    Widget.ops.update_constraints fixture_child =
        some (true, { fixture_child with request_reconstrain := false }) ∧
      fixture_widget.p_preferred_size.minimum = ⟨50, 20, 0, 0⟩ ∧
      ∃ w1 : overlay_view_widget Widget,
        overlay_view_widget.update_constraints Widget.ops ⟨fixture_widget, some fixture_child⟩ =
          some (true, w1) ∧
        w1.p_preferred_size.minimum = ⟨200, 100, 0, 0⟩ := by
  refine ⟨rfl, rfl, ?_⟩
  obtain ⟨w1, h1, h2, _, _⟩ :=
    overlay_takes_child_preferences Widget.ops fixture_widget fixture_child
      { fixture_child with request_reconstrain := false } rfl
  exact ⟨w1, h1, by rw [h2]; rfl⟩

/-- C16: update_constraints returns true exactly when the preferred values were
recomputed in the call. For the overlay view the result is the OR of the base
pass and the pass of the child, and the preferred values are those of the child
when it is true and the old ones when it is false; for the toolbar tab button
the result is that of the base pass, and the preferred values are computed from
the label when it is true and the old ones when it is false. -/
theorem update_constraints_reports_recomputation {C : Type} (ops : WidgetOps C)
    (b : Widget) (c c1 : C) (cb : Bool) (theme : Theme) (preferredExtent : TextCell → vec)
    (s : toolbar_tab_button_widget) (hchild : ops.update_constraints c = some (cb, c1)) :
    (∃ w1 : overlay_view_widget C,
      overlay_view_widget.update_constraints ops ⟨b, some c⟩ =
        some (cb || (Widget.update_constraints b).1, w1) ∧
      w1.p_preferred_size =
        (if cb || (Widget.update_constraints b).1 then ops.preferred_size c1
          else b.p_preferred_size) ∧
      w1.p_preferred_base_line =
        (if cb || (Widget.update_constraints b).1 then ops.preferred_base_line c1
          else b.p_preferred_base_line)) ∧
    ((s.update_constraints theme preferredExtent).1 = (Widget.update_constraints s.toWidget).1 ∧
      (s.update_constraints theme preferredExtent).2.p_preferred_size =
        (if (Widget.update_constraints s.toWidget).1 then
          ⟨⟨(preferredExtent ⟨s.label, theme.labelStyle⟩).x + 2 * theme.margin,
              (preferredExtent ⟨s.label, theme.labelStyle⟩).y, 0, 0⟩,
            (float_inf.finite
                ((preferredExtent ⟨s.label, theme.labelStyle⟩).x + 2 * theme.margin),
              float_inf.infinity)⟩
          else s.p_preferred_size) ∧
      (s.update_constraints theme preferredExtent).2.p_preferred_base_line =
        (if (Widget.update_constraints s.toWidget).1 then
          ⟨VerticalAlignment.Middle, -theme.margin⟩
          else s.p_preferred_base_line)) := by
  constructor
  · refine ⟨_, overlay_update_constraints_eq ops b c cb c1 hchild, ?_, ?_⟩ <;>
      cases cb <;> cases hb : b.request_reconstrain <;> simp [Widget.update_constraints, hb]
  · rw [tab_update_constraints_eq]
    cases hs : s.request_reconstrain <;> simp [Widget.update_constraints, hs]

/-- C16 at an overlay around a child that reports a change and at a tab button
that asks to be reconstrained. -/
theorem update_constraints_reports_recomputation_witness :
    Widget.ops.update_constraints fixture_child =
        some (true, { fixture_child with request_reconstrain := false }) ∧
      (fixture_tab.update_constraints fixture_theme fixture_preferredExtent).1 = true ∧
      ∃ w1 : overlay_view_widget Widget,
        overlay_view_widget.update_constraints Widget.ops ⟨fixture_widget, some fixture_child⟩ =
          some (true, w1) := by
  obtain ⟨⟨w1, h1, _, _⟩, h2, _, _⟩ :=
    update_constraints_reports_recomputation Widget.ops fixture_widget fixture_child
      { fixture_child with request_reconstrain := false } true fixture_theme
      fixture_preferredExtent fixture_tab rfl
  exact ⟨rfl, h2, w1, h1⟩

theorem tree_update_constraints_settles (theme : Theme) (fit : aarect → aarect → aarect)
    (preferredExtent : TextCell → vec) (rectangle : Widget → aarect) :
    ∀ (n : Nat) (w : widget_tree n), widget_tree.complete n w = true →
      ∃ (b : Bool) (w1 : widget_tree n),
        (widget_tree.ops theme fit preferredExtent rectangle n).update_constraints w =
          some (b, w1) ∧
        widget_tree.settled n w1 = true := by
  intro n
  induction n with
  | zero =>
    intro w _
    change toolbar_tab_button_widget at w
    refine ⟨(w.update_constraints theme preferredExtent).1,
      (w.update_constraints theme preferredExtent).2, rfl, ?_⟩
    show widget_tree.settled 0 (w.update_constraints theme preferredExtent).2 = true
    rw [tab_update_constraints_eq]
    cases hs : w.request_reconstrain <;> simp [widget_tree.settled]
  | succ n ih =>
    intro w hw
    change overlay_view_widget (widget_tree n) at w
    obtain ⟨wb, wc⟩ := w
    cases wc with
    | none => simp [widget_tree.complete] at hw
    | some c =>
      obtain ⟨cb, c1, hc, hc1⟩ := ih c (by simpa [widget_tree.complete] using hw)
      refine ⟨_, _, overlay_update_constraints_eq _ wb c cb c1 hc, ?_⟩
      cases hcond : (cb || wb.request_reconstrain) <;> simp [widget_tree.settled, hc1]

theorem tree_update_constraints_settled (theme : Theme) (fit : aarect → aarect → aarect)
    (preferredExtent : TextCell → vec) (rectangle : Widget → aarect) :
    ∀ (n : Nat) (w : widget_tree n), widget_tree.settled n w = true →
      ∃ w2 : widget_tree n,
        (widget_tree.ops theme fit preferredExtent rectangle n).update_constraints w =
          some (false, w2) ∧
        (widget_tree.ops theme fit preferredExtent rectangle n).preferred_size w2 =
          (widget_tree.ops theme fit preferredExtent rectangle n).preferred_size w ∧
        (widget_tree.ops theme fit preferredExtent rectangle n).preferred_base_line w2 =
          (widget_tree.ops theme fit preferredExtent rectangle n).preferred_base_line w := by
  intro n
  induction n with
  | zero =>
    intro w hw
    change toolbar_tab_button_widget at w
    have hs : w.request_reconstrain = false := by simpa [widget_tree.settled] using hw
    refine ⟨(w.update_constraints theme preferredExtent).2, ?_, ?_, ?_⟩
    · show some (w.update_constraints theme preferredExtent) = _
      rw [tab_update_constraints_eq]
      simp [hs]
    · show (w.update_constraints theme preferredExtent).2.p_preferred_size = w.p_preferred_size
      rw [tab_update_constraints_eq]
      simp [hs]
    · show (w.update_constraints theme preferredExtent).2.p_preferred_base_line =
        w.p_preferred_base_line
      rw [tab_update_constraints_eq]
      simp [hs]
  | succ n ih =>
    intro w hw
    change overlay_view_widget (widget_tree n) at w
    obtain ⟨wb, wc⟩ := w
    cases wc with
    | none => simp [widget_tree.settled] at hw
    | some c =>
      have hboth : wb.request_reconstrain = false ∧ widget_tree.settled n c = true := by
        simpa [widget_tree.settled] using hw
      obtain ⟨c2, hc, _, _⟩ := ih c hboth.2
      have h := overlay_update_constraints_eq _ wb c false c2 hc
      rw [hboth.1] at h
      exact ⟨_, h, rfl, rfl⟩

/-- C17: update_constraints is idempotent on every widget tree built from
overlay views and a toolbar tab button in which every overlay view has its
child: the first call returns, a second call right after it returns false, and
the preferred size and base line after the second call are those the first call
left. -/
theorem update_constraints_idempotent (theme : Theme) (fit : aarect → aarect → aarect)
    (preferredExtent : TextCell → vec) (rectangle : Widget → aarect)
    (n : Nat) (w : widget_tree n) (hw : widget_tree.complete n w = true) :
    ∃ (b : Bool) (w1 w2 : widget_tree n),
      (widget_tree.ops theme fit preferredExtent rectangle n).update_constraints w =
        some (b, w1) ∧
      (widget_tree.ops theme fit preferredExtent rectangle n).update_constraints w1 =
        some (false, w2) ∧
      (widget_tree.ops theme fit preferredExtent rectangle n).preferred_size w2 =
        (widget_tree.ops theme fit preferredExtent rectangle n).preferred_size w1 ∧
      (widget_tree.ops theme fit preferredExtent rectangle n).preferred_base_line w2 =
        (widget_tree.ops theme fit preferredExtent rectangle n).preferred_base_line w1 := by
  obtain ⟨b, w1, h1, hs⟩ :=
    tree_update_constraints_settles theme fit preferredExtent rectangle n w hw
  obtain ⟨w2, h2, h3, h4⟩ :=
    tree_update_constraints_settled theme fit preferredExtent rectangle n w1 hs
  exact ⟨b, w1, w2, h1, h2, h3, h4⟩

/-- C17 at an overlay view around a toolbar tab button that asks to be
reconstrained. -/
theorem update_constraints_idempotent_witness :
    widget_tree.complete 1 (⟨fixture_widget, some fixture_tab⟩ : overlay_view_widget
        toolbar_tab_button_widget) = true ∧
      ∃ (b : Bool) (w1 w2 : widget_tree 1),
        (widget_tree.ops fixture_theme fit fixture_preferredExtent fixture_rectangle
            1).update_constraints ⟨fixture_widget, some fixture_tab⟩ = some (b, w1) ∧
        (widget_tree.ops fixture_theme fit fixture_preferredExtent fixture_rectangle
            1).update_constraints w1 = some (false, w2) ∧
        (widget_tree.ops fixture_theme fit fixture_preferredExtent fixture_rectangle
            1).preferred_size w2 =
          (widget_tree.ops fixture_theme fit fixture_preferredExtent fixture_rectangle
            1).preferred_size w1 ∧
        (widget_tree.ops fixture_theme fit fixture_preferredExtent fixture_rectangle
            1).preferred_base_line w2 =
          (widget_tree.ops fixture_theme fit fixture_preferredExtent fixture_rectangle
            1).preferred_base_line w1 :=
  ⟨rfl, update_constraints_idempotent fixture_theme fit fixture_preferredExtent
    fixture_rectangle 1 ⟨fixture_widget, some fixture_tab⟩ rfl⟩

/-! ## Claims on the layout pass -/

theorem tab_update_layout_eq (theme : Theme) (rectangle : Widget → aarect)
    (s : toolbar_tab_button_widget) (t : time_point) (need_layout : Bool) :
    s.update_layout theme rectangle t need_layout =
      (need_layout || s.request_relayout,
        { toWidget := { s.toWidget with request_relayout := false }
          label := s.label
          button_rectangle :=
            if need_layout || s.request_relayout then
              aarect.from_xywh (rectangle { s.toWidget with request_relayout := false }).x
                ((rectangle { s.toWidget with request_relayout := false }).y -
                  (theme.margin + theme.borderWidth))
                (rectangle { s.toWidget with request_relayout := false }).width
                ((rectangle { s.toWidget with request_relayout := false }).height +
                  (theme.margin + theme.borderWidth))
            else s.button_rectangle
          label_cell := s.label_cell }) := by
  unfold toolbar_tab_button_widget.update_layout Widget.update_layout
  simp

theorem fit_v (bounds r : aarect) :
    (fit bounds r).v =
      ⟨r.v.x + (max 0 (bounds.v.x - r.v.x) +
          min 0 (bounds.v.z - (r.v.x + min r.width bounds.width))),
        r.v.y + (max 0 (bounds.v.y - r.v.y) +
          min 0 (bounds.v.w - (r.v.y + min r.height bounds.height))),
        r.v.x + min r.width bounds.width + (max 0 (bounds.v.x - r.v.x) +
          min 0 (bounds.v.z - (r.v.x + min r.width bounds.width))),
        r.v.y + min r.height bounds.height + (max 0 (bounds.v.y - r.v.y) +
          min 0 (bounds.v.w - (r.v.y + min r.height bounds.height)))⟩ := by
  rfl

theorem fixture_fitted_window_rectangle :
    overlay_view_widget.fitted_window_rectangle fit fixture_widget = ⟨⟨6, 6, 94, 44⟩⟩ := by
  unfold overlay_view_widget.fitted_window_rectangle shrink
  rw [aarect.mk.injEq, expand_v, fit_v]
  simp only [width_v, height_v, expand_v]
  norm_num [fixture_widget, fixture_window, aarect.from_extent, vec._00xy]

theorem fixture_fitted_clipping_rectangle :
    overlay_view_widget.fitted_clipping_rectangle fixture_theme fit fixture_widget =
      ⟨⟨5, 5, 95, 45⟩⟩ := by
  unfold overlay_view_widget.fitted_clipping_rectangle
  rw [fixture_fitted_window_rectangle, aarect.mk.injEq, expand_v]
  norm_num [fixture_theme]

theorem overlay_update_layout_over_eq {C : Type}
    (base_update_layout : Widget → time_point → Bool → Bool × Widget) (theme : Theme)
    (fit : aarect → aarect → aarect) (ops : WidgetOps C) (b : Widget) (c : C)
    (t : time_point) (need_layout : Bool) (cr : Bool) (c1 : C)
    (h : ops.update_layout
        (if need_layout || b.request_relayout then
          ops.set_layout_parameters c (overlay_view_widget.fitted_window_rectangle fit b)
            (overlay_view_widget.fitted_clipping_rectangle theme fit b)
        else c) t (need_layout || b.request_relayout) = some (cr, c1)) :
    overlay_view_widget.update_layout_over id base_update_layout theme fit ops ⟨b, some c⟩ t
        need_layout =
      some
        ((base_update_layout
            (if need_layout || b.request_relayout then
              { b with
                request_relayout := false
                p_window_rectangle := overlay_view_widget.fitted_window_rectangle fit b
                p_window_clipping_rectangle :=
                  overlay_view_widget.fitted_clipping_rectangle theme fit b }
            else { b with request_relayout := false })
            t (need_layout || b.request_relayout)).1 ||
          ((need_layout || b.request_relayout) || cr),
        ⟨(base_update_layout
            (if need_layout || b.request_relayout then
              { b with
                request_relayout := false
                p_window_rectangle := overlay_view_widget.fitted_window_rectangle fit b
                p_window_clipping_rectangle :=
                  overlay_view_widget.fitted_clipping_rectangle theme fit b }
            else { b with request_relayout := false })
            t (need_layout || b.request_relayout)).2,
          some c1⟩) := by
  unfold overlay_view_widget.update_layout_over
  cases hn : (need_layout || b.request_relayout)
  · rw [hn] at h
    simp only [hn, Bool.false_eq_true, if_false] at h ⊢
    simp [h]
  · rw [hn] at h
    simp only [if_true] at h
    have h1 : ops.update_layout
        (ops.set_layout_parameters c
          (shrink_fl id
            (fit (aarect.from_extent b.window.currentWindowExtent)
              (expand_fl id b.p_window_rectangle b.p_margin)) b.p_margin)
          (expand_fl id
            (shrink_fl id
              (fit (aarect.from_extent b.window.currentWindowExtent)
                (expand_fl id b.p_window_rectangle b.p_margin)) b.p_margin)
            theme.borderWidth)) t true = some (cr, c1) := h
    simp only [hn, if_true]
    simp only [h1]
    rfl

/-- C18: in update_layout of the overlay view and of the toolbar tab button the
relayout in effect is the caller's need_layout OR the widget's request_relayout
flag at entry. The overlay view recomputes its rectangles exactly when it is
set, hands the child to its pass with it, and calls the base pass with it,
whatever the base pass is; the tab button recomputes its button rectangle
exactly when it is set and calls the base pass with it; in both the flag
request_relayout is false on return. -/
theorem update_layout_effective_need_layout {C : Type} (theme : Theme)
    (fit : aarect → aarect → aarect) (ops : WidgetOps C) (b : Widget) (c c1 : C)
    (t : time_point) (need_layout cr : Bool) (rectangle : Widget → aarect)
    (s : toolbar_tab_button_widget)
    (base_update_layout : Widget → time_point → Bool → Bool × Widget)
    (hchild : ops.update_layout
        (if need_layout || b.request_relayout then
          ops.set_layout_parameters c (overlay_view_widget.fitted_window_rectangle fit b)
            (overlay_view_widget.fitted_clipping_rectangle theme fit b)
        else c) t (need_layout || b.request_relayout) = some (cr, c1)) :
    (∃ (r : Bool) (w1 : overlay_view_widget C),
      overlay_view_widget.update_layout theme fit ops ⟨b, some c⟩ t need_layout = some (r, w1) ∧
      w1.child = some c1 ∧
      w1.request_relayout = false ∧
      w1.p_window_rectangle =
        (if need_layout || b.request_relayout then
          overlay_view_widget.fitted_window_rectangle fit b
        else b.p_window_rectangle) ∧
      w1.p_window_clipping_rectangle =
        (if need_layout || b.request_relayout then
          overlay_view_widget.fitted_clipping_rectangle theme fit b
        else b.p_window_clipping_rectangle) ∧
      r = ((Widget.update_layout { b with request_relayout := false } t
            (need_layout || b.request_relayout)).1 ||
          ((need_layout || b.request_relayout) || cr))) ∧
    ((s.update_layout theme rectangle t need_layout).1 =
        (Widget.update_layout { s.toWidget with request_relayout := false } t
          (need_layout || s.request_relayout)).1 ∧
      (s.update_layout theme rectangle t need_layout).2.request_relayout = false ∧
      (s.update_layout theme rectangle t need_layout).2.button_rectangle =
        (if need_layout || s.request_relayout then
          aarect.from_xywh (rectangle { s.toWidget with request_relayout := false }).x
            ((rectangle { s.toWidget with request_relayout := false }).y -
              (theme.margin + theme.borderWidth))
            (rectangle { s.toWidget with request_relayout := false }).width
            ((rectangle { s.toWidget with request_relayout := false }).height +
              (theme.margin + theme.borderWidth))
        else s.button_rectangle)) ∧
    (overlay_view_widget.update_layout theme fit ops ⟨b, some c⟩ t need_layout =
        overlay_view_widget.update_layout_over id Widget.update_layout theme fit ops
          ⟨b, some c⟩ t need_layout ∧
      overlay_view_widget.update_layout_over id base_update_layout theme fit ops ⟨b, some c⟩ t
          need_layout =
        some
          ((base_update_layout
              (if need_layout || b.request_relayout then
                { b with
                  request_relayout := false
                  p_window_rectangle := overlay_view_widget.fitted_window_rectangle fit b
                  p_window_clipping_rectangle :=
                    overlay_view_widget.fitted_clipping_rectangle theme fit b }
              else { b with request_relayout := false })
              t (need_layout || b.request_relayout)).1 ||
            ((need_layout || b.request_relayout) || cr),
          ⟨(base_update_layout
              (if need_layout || b.request_relayout then
                { b with
                  request_relayout := false
                  p_window_rectangle := overlay_view_widget.fitted_window_rectangle fit b
                  p_window_clipping_rectangle :=
                    overlay_view_widget.fitted_clipping_rectangle theme fit b }
              else { b with request_relayout := false })
              t (need_layout || b.request_relayout)).2,
            some c1⟩)) := by
  refine ⟨?_, ?_, rfl, ?_⟩
  · refine ⟨_, _, overlay_update_layout_eq theme fit ops b c t need_layout cr c1 hchild,
      rfl, ?_, ?_, ?_, ?_⟩
    · cases (need_layout || b.request_relayout) <;> rfl
    · cases (need_layout || b.request_relayout) <;> rfl
    · cases (need_layout || b.request_relayout) <;> rfl
    · cases (need_layout || b.request_relayout) <;> cases cr <;> rfl
  · rw [tab_update_layout_eq]
    simp [Widget.update_layout]
  · exact overlay_update_layout_over_eq base_update_layout theme fit ops b c t need_layout
      cr c1 hchild

/-- C18 at an overlay view around a plain widget and at a tab button, the
caller asking for a relayout. -/
theorem update_layout_effective_need_layout_witness :
    Widget.ops.update_layout
        (if true || fixture_widget.request_relayout then
          Widget.ops.set_layout_parameters fixture_child
            (overlay_view_widget.fitted_window_rectangle fit fixture_widget)
            (overlay_view_widget.fitted_clipping_rectangle fixture_theme fit fixture_widget)
        else fixture_child) 0 (true || fixture_widget.request_relayout) =
      some (true,
        Widget.set_layout_parameters fixture_child
          (overlay_view_widget.fitted_window_rectangle fit fixture_widget)
          (overlay_view_widget.fitted_clipping_rectangle fixture_theme fit fixture_widget)) ∧
      (fixture_tab.update_layout fixture_theme fixture_rectangle 0 true).2.request_relayout =
        false ∧
      ∃ (r : Bool) (w1 : overlay_view_widget Widget),
        overlay_view_widget.update_layout fixture_theme fit Widget.ops
          ⟨fixture_widget, some fixture_child⟩ 0 true = some (r, w1) ∧
        w1.request_relayout = false := by
  obtain ⟨⟨r, w1, h1, _, h2, _⟩, ⟨_, h3, _⟩, _⟩ :=
    update_layout_effective_need_layout fixture_theme fit Widget.ops fixture_widget
      fixture_child
      (Widget.set_layout_parameters fixture_child
        (overlay_view_widget.fitted_window_rectangle fit fixture_widget)
        (overlay_view_widget.fitted_clipping_rectangle fixture_theme fit fixture_widget))
      0 true true fixture_rectangle fixture_tab Widget.update_layout rfl
  exact ⟨rfl, h3, r, w1, h1, h2⟩

/-- C19, the claim refuted: an overlay view whose rectangle with its margin
already fills the window and whose clipping rectangle is already its rectangle
expanded by the border width is laid out on the caller's request, around a
child that reports no redraw. Neither rectangle changes and the child reports
false, yet update_layout returns true. -/
theorem overlay_redraw_without_geometry_change :
    fixture_static_ops.update_layout () 0 true = some (false, ()) ∧
      (overlay_view_widget.update_layout fixture_theme fit fixture_static_ops
          ⟨fixture_widget, some ()⟩ 0 true).map
        (fun r => (r.1, r.2.p_window_rectangle, r.2.p_window_clipping_rectangle)) =
      some (true, fixture_widget.p_window_rectangle,
        fixture_widget.p_window_clipping_rectangle) := by
  refine ⟨rfl, ?_⟩
  rw [overlay_update_layout_eq fixture_theme fit fixture_static_ops fixture_widget () 0 true
    false () rfl]
  show some (_, _, _) = some (_, _, _)
  rw [Option.some.injEq, Prod.mk.injEq, Prod.mk.injEq]
  exact ⟨rfl, fixture_fitted_window_rectangle, fixture_fitted_clipping_rectangle⟩

/-- C19, amended: the value returned by overlay_view_widget::update_layout is
the OR of the update_layout result of its child with whether a relayout was in
effect in this call (the caller's need_layout or the request_relayout flag at
entry). It is false exactly when the child reports false and no relayout was in
effect, and then the window rectangle and the clipping rectangle are the old
ones. -/
theorem overlay_update_layout_result {C : Type} (theme : Theme)
    (fit : aarect → aarect → aarect) (ops : WidgetOps C) (b : Widget) (c c1 : C)
    (t : time_point) (need_layout cr : Bool)
    (hchild : ops.update_layout
        (if need_layout || b.request_relayout then
          ops.set_layout_parameters c (overlay_view_widget.fitted_window_rectangle fit b)
            (overlay_view_widget.fitted_clipping_rectangle theme fit b)
        else c) t (need_layout || b.request_relayout) = some (cr, c1)) :
    ∃ w1 : overlay_view_widget C,
      overlay_view_widget.update_layout theme fit ops ⟨b, some c⟩ t need_layout =
        some (cr || (need_layout || b.request_relayout), w1) ∧
      ((cr || (need_layout || b.request_relayout)) = false ↔
        (cr = false ∧ need_layout = false ∧ b.request_relayout = false)) ∧
      w1.p_window_rectangle =
        (if need_layout || b.request_relayout then
          overlay_view_widget.fitted_window_rectangle fit b
        else b.p_window_rectangle) ∧
      w1.p_window_clipping_rectangle =
        (if need_layout || b.request_relayout then
          overlay_view_widget.fitted_clipping_rectangle theme fit b
        else b.p_window_clipping_rectangle) := by
  have h := overlay_update_layout_eq theme fit ops b c t need_layout cr c1 hchild
  rw [Bool.or_comm] at h
  refine ⟨_, h, ?_, ?_, ?_⟩
  · cases cr <;> cases need_layout <;> cases b.request_relayout <;> simp
  · cases (need_layout || b.request_relayout) <;> rfl
  · cases (need_layout || b.request_relayout) <;> rfl

/-- C19, amended, at an overlay view without pending relayout around a child
that reports no redraw, the caller not asking for a relayout: the result is
false. -/
theorem overlay_update_layout_result_witness :
    fixture_static_ops.update_layout
        (if false || fixture_widget.request_relayout then
          fixture_static_ops.set_layout_parameters ()
            (overlay_view_widget.fitted_window_rectangle fit fixture_widget)
            (overlay_view_widget.fitted_clipping_rectangle fixture_theme fit fixture_widget)
        else ()) 0 (false || fixture_widget.request_relayout) = some (false, ()) ∧
      ∃ w1 : overlay_view_widget Unit,
        overlay_view_widget.update_layout fixture_theme fit fixture_static_ops
          ⟨fixture_widget, some ()⟩ 0 false = some (false, w1) := by
  obtain ⟨w1, h1, _⟩ :=
    overlay_update_layout_result fixture_theme fit fixture_static_ops fixture_widget () ()
      0 false false rfl
  exact ⟨rfl, w1, h1⟩

theorem expand_shrink (r : aarect) (m : ℚ) : expand (shrink r m) m = r := by
  unfold shrink
  rw [aarect.mk.injEq, expand_v, expand_v, vec.mk.injEq]
  refine ⟨?_, ?_, ?_, ?_⟩ <;> ring

theorem fixture_fit :
    fit (aarect.from_extent fixture_widget.window.currentWindowExtent)
        (expand fixture_widget.p_window_rectangle fixture_widget.p_margin) =
      ⟨⟨0, 0, 100, 50⟩⟩ := by
  rw [aarect.mk.injEq, fit_v]
  simp only [width_v, height_v, expand_v]
  norm_num [fixture_widget, fixture_window, aarect.from_extent, vec._00xy]

theorem fixture_offscreen_fit :
    fit (aarect.from_extent fixture_offscreen_widget.window.currentWindowExtent)
        (expand fixture_offscreen_widget.p_window_rectangle fixture_offscreen_widget.p_margin) =
      ⟨⟨48, 20, 100, 50⟩⟩ := by
  decide!

/-- C20, the claim refuted on float32 lanes: in a window of extent 1.9f by 1.9f
an overlay view of margin 0.7f is laid out on the caller's request, and fit
returns the window rectangle itself, which lies inside the window. The new
window rectangle expanded by the margin then has the right edge
3984589/2097152 (1.9000001), beyond the window extent 1.9f. -/
theorem overlay_float32_layout_leaves_window :
    (overlay_view_widget.update_layout_over float32_round Widget.update_layout fixture_theme
          (fun bounds _ => bounds) fixture_static_ops ⟨fixture_float_widget, some ()⟩ 0 true).map
        (fun r =>
          ((expand_fl float32_round r.2.p_window_rectangle r.2.p_margin).p2.x,
            fixture_float_widget.window.currentWindowExtent.x)) =
        some (3984589 / 2097152, 15938355 / 8388608) ∧
      (15938355 / 8388608 : ℚ) < 3984589 / 2097152 := by
  decide!

/-- C20, amended: in exact arithmetic, when overlay_view_widget::update_layout
runs with a relayout in effect and fit returns a rectangle inside the window
rectangle it is given, then afterwards the window rectangle of the overlay
expanded by its margin lies inside the window rectangle (0, 0, window extent);
the new window rectangle is computed from the overlay's own rectangle, its
margin and the window extent alone; the clipping rectangle is the new window
rectangle expanded by the border width; and the child runs its pass after being
given exactly these two rectangles. The exact function is update_layout with
the rounding of the lane operations left out. -/
theorem overlay_layout_inside_window {C : Type} (theme : Theme)
    (fit : aarect → aarect → aarect) (ops : WidgetOps C) (b : Widget) (c c1 : C)
    (t : time_point) (need_layout cr : Bool)
    (heff : (need_layout || b.request_relayout) = true)
    (hfit :
      (aarect.from_extent b.window.currentWindowExtent).p1.x ≤
          (fit (aarect.from_extent b.window.currentWindowExtent)
            (expand b.p_window_rectangle b.p_margin)).p1.x ∧
        (aarect.from_extent b.window.currentWindowExtent).p1.y ≤
          (fit (aarect.from_extent b.window.currentWindowExtent)
            (expand b.p_window_rectangle b.p_margin)).p1.y ∧
        (fit (aarect.from_extent b.window.currentWindowExtent)
            (expand b.p_window_rectangle b.p_margin)).p2.x ≤
          (aarect.from_extent b.window.currentWindowExtent).p2.x ∧
        (fit (aarect.from_extent b.window.currentWindowExtent)
            (expand b.p_window_rectangle b.p_margin)).p2.y ≤
          (aarect.from_extent b.window.currentWindowExtent).p2.y)
    (hchild : ops.update_layout
        (ops.set_layout_parameters c (overlay_view_widget.fitted_window_rectangle fit b)
          (overlay_view_widget.fitted_clipping_rectangle theme fit b)) t true =
        some (cr, c1)) :
    (∃ (r : Bool) (w1 : overlay_view_widget C),
      overlay_view_widget.update_layout theme fit ops ⟨b, some c⟩ t need_layout = some (r, w1) ∧
      (0 ≤ (expand w1.p_window_rectangle w1.p_margin).p1.x ∧
        0 ≤ (expand w1.p_window_rectangle w1.p_margin).p1.y ∧
        (expand w1.p_window_rectangle w1.p_margin).p2.x ≤ b.window.currentWindowExtent.x ∧
        (expand w1.p_window_rectangle w1.p_margin).p2.y ≤ b.window.currentWindowExtent.y) ∧
      w1.p_window_rectangle =
        shrink (fit (aarect.from_extent b.window.currentWindowExtent)
          (expand b.p_window_rectangle b.p_margin)) b.p_margin ∧
      w1.p_window_clipping_rectangle = expand w1.p_window_rectangle theme.borderWidth ∧
      w1.child = some c1) ∧
    overlay_view_widget.update_layout_over id Widget.update_layout theme fit ops ⟨b, some c⟩ t
        need_layout =
      overlay_view_widget.update_layout theme fit ops ⟨b, some c⟩ t need_layout := by
  have hchild1 : ops.update_layout
      (if need_layout || b.request_relayout then
        ops.set_layout_parameters c (overlay_view_widget.fitted_window_rectangle fit b)
          (overlay_view_widget.fitted_clipping_rectangle theme fit b)
      else c) t (need_layout || b.request_relayout) = some (cr, c1) := by
    rw [heff]
    exact hchild
  have h := overlay_update_layout_eq theme fit ops b c t need_layout cr c1 hchild1
  rw [heff] at h
  refine ⟨⟨_, _, h, ?_, rfl, rfl, rfl⟩, rfl⟩
  show 0 ≤ (expand (overlay_view_widget.fitted_window_rectangle fit b) b.p_margin).p1.x ∧
    0 ≤ (expand (overlay_view_widget.fitted_window_rectangle fit b) b.p_margin).p1.y ∧
    (expand (overlay_view_widget.fitted_window_rectangle fit b) b.p_margin).p2.x ≤
      b.window.currentWindowExtent.x ∧
    (expand (overlay_view_widget.fitted_window_rectangle fit b) b.p_margin).p2.y ≤
      b.window.currentWindowExtent.y
  unfold overlay_view_widget.fitted_window_rectangle
  rw [expand_shrink]
  exact hfit

/-- C20, amended, at an overlay view in a window of extent (100, 50) whose
rectangle with its margin, from (74, 24) to (126, 54), reaches beyond the right
and the top edge of the window, so that fit moves it to (48, 20)-(100, 50); the
caller asks for a relayout. -/
theorem overlay_layout_inside_window_witness :
    (true || fixture_offscreen_widget.request_relayout) = true ∧
      fit (aarect.from_extent fixture_offscreen_widget.window.currentWindowExtent)
          (expand fixture_offscreen_widget.p_window_rectangle
            fixture_offscreen_widget.p_margin) = ⟨⟨48, 20, 100, 50⟩⟩ ∧
      ∃ (r : Bool) (w1 : overlay_view_widget Widget),
        overlay_view_widget.update_layout fixture_theme fit Widget.ops
          ⟨fixture_offscreen_widget, some fixture_child⟩ 0 true = some (r, w1) ∧
        (0 ≤ (expand w1.p_window_rectangle w1.p_margin).p1.x ∧
          0 ≤ (expand w1.p_window_rectangle w1.p_margin).p1.y ∧
          (expand w1.p_window_rectangle w1.p_margin).p2.x ≤
            fixture_offscreen_widget.window.currentWindowExtent.x ∧
          (expand w1.p_window_rectangle w1.p_margin).p2.y ≤
            fixture_offscreen_widget.window.currentWindowExtent.y) ∧
        w1.p_window_rectangle =
          shrink (fit (aarect.from_extent fixture_offscreen_widget.window.currentWindowExtent)
            (expand fixture_offscreen_widget.p_window_rectangle
              fixture_offscreen_widget.p_margin))
            fixture_offscreen_widget.p_margin ∧
        w1.p_window_clipping_rectangle = expand w1.p_window_rectangle fixture_theme.borderWidth ∧
        w1.child = some (Widget.update_layout
          (Widget.set_layout_parameters fixture_child
            (overlay_view_widget.fitted_window_rectangle fit fixture_offscreen_widget)
            (overlay_view_widget.fitted_clipping_rectangle fixture_theme fit
              fixture_offscreen_widget))
          0 true).2 :=
  ⟨rfl, fixture_offscreen_fit,
    (overlay_layout_inside_window fixture_theme fit Widget.ops fixture_offscreen_widget
      fixture_child
      (Widget.update_layout
        (Widget.set_layout_parameters fixture_child
          (overlay_view_widget.fitted_window_rectangle fit fixture_offscreen_widget)
          (overlay_view_widget.fitted_clipping_rectangle fixture_theme fit
            fixture_offscreen_widget))
        0 true).2
      0 true true rfl
      (by
        rw [fixture_offscreen_fit]
        norm_num [p1_v, p2_v, fixture_offscreen_widget, fixture_widget, fixture_window,
          aarect.from_extent, vec._00xy])
      rfl).1⟩

/-! ## Claims on hit testing -/

theorem fixture_child_miss :
    fixture_child_hitbox_test fixture_small_child (vec.point 50 25) = ⟨none, 0⟩ := by
  have h : fixture_small_child.p_window_rectangle.contains (vec.point 50 25) = false := by
    rw [← Bool.not_eq_true, contains_iff]
    norm_num [fixture_small_child, vec.point]
  unfold fixture_child_hitbox_test
  rw [h]
  rfl

theorem fixture_child_hit :
    fixture_child_hitbox_test fixture_small_child (vec.point 15 15) = ⟨some 1, 1⟩ := by
  have h : fixture_small_child.p_window_rectangle.contains (vec.point 15 15) = true := by
    rw [contains_iff]
    norm_num [fixture_small_child, vec.point]
  unfold fixture_child_hitbox_test
  rw [if_pos h]
  rfl

/-- C21: for every point, if the child of an overlay_view_widget reports a hit
at that point, overlay_view_widget::hitbox_test returns exactly the result of
the child. -/
theorem overlay_hitbox_child_priority {C : Type} (child_hitbox_test : C → vec → HitBox)
    (b : Widget) (c : C) (window_position : vec)
    (_hhit : (child_hitbox_test c window_position).widget.isSome = true) :
    overlay_view_widget.hitbox_test child_hitbox_test ⟨b, some c⟩ window_position =
      some (child_hitbox_test c window_position) :=
  rfl

/-- C21 at an overlay around a child that is hit at the point (15, 15). -/
theorem overlay_hitbox_child_priority_witness :
    (fixture_child_hitbox_test fixture_small_child (vec.point 15 15)).widget.isSome = true ∧
      overlay_view_widget.hitbox_test fixture_child_hitbox_test
          ⟨fixture_widget, some fixture_small_child⟩ (vec.point 15 15) =
        some (fixture_child_hitbox_test fixture_small_child (vec.point 15 15)) :=
  have h : (fixture_child_hitbox_test fixture_small_child (vec.point 15 15)).widget.isSome =
      true := by
    rw [fixture_child_hit]
    rfl
  ⟨h, overlay_hitbox_child_priority fixture_child_hitbox_test fixture_widget
    fixture_small_child (vec.point 15 15) h⟩

/-- C22, the claim refuted: the window rectangle of the overlay, from (6, 6) to
(94, 44), contains the point (50, 25), its child reports no hit there, and
hitbox_test reports no hit at all, so none on the overlay itself. -/
theorem overlay_hitbox_no_fallback :
    fixture_widget.p_window_rectangle.contains (vec.point 50 25) = true ∧
      (fixture_child_hitbox_test fixture_small_child (vec.point 50 25)).widget = none ∧
      overlay_view_widget.hitbox_test fixture_child_hitbox_test
          ⟨fixture_widget, some fixture_small_child⟩ (vec.point 50 25) =
        some ⟨none, 0⟩ := by
  refine ⟨?_, ?_, ?_⟩
  · rw [contains_iff]
    norm_num [fixture_widget, vec.point]
  · rw [fixture_child_miss]
  · show some (fixture_child_hitbox_test fixture_small_child (vec.point 50 25)) = _
    rw [fixture_child_miss]

/-- C22, amended: for every point at which the child of an overlay_view_widget
reports no hit, hitbox_test returns that answer of the child, which names no
widget, whatever the window rectangle of the overlay is. -/
theorem overlay_hitbox_child_only {C : Type} (child_hitbox_test : C → vec → HitBox)
    (b : Widget) (c : C) (window_position : vec)
    (hmiss : (child_hitbox_test c window_position).widget = none) :
    ∃ h : HitBox,
      overlay_view_widget.hitbox_test child_hitbox_test ⟨b, some c⟩ window_position = some h ∧
      h = child_hitbox_test c window_position ∧ h.widget = none :=
  ⟨_, rfl, rfl, hmiss⟩

/-- C22, amended, at the point (50, 25) inside the overlay and outside its
child. -/
theorem overlay_hitbox_child_only_witness :
    (fixture_child_hitbox_test fixture_small_child (vec.point 50 25)).widget = none ∧
      ∃ h : HitBox,
        overlay_view_widget.hitbox_test fixture_child_hitbox_test
            ⟨fixture_widget, some fixture_small_child⟩ (vec.point 50 25) = some h ∧
        h = fixture_child_hitbox_test fixture_small_child (vec.point 50 25) ∧
        h.widget = none :=
  have hmiss : (fixture_child_hitbox_test fixture_small_child (vec.point 50 25)).widget =
      none := by
    rw [fixture_child_miss]
  ⟨hmiss, overlay_hitbox_child_only fixture_child_hitbox_test fixture_widget
    fixture_small_child (vec.point 50 25) hmiss⟩

/-! ## Claims on paint order -/

theorem draw_button_depth (self : toolbar_tab_button_widget) (focus : Bool)
    (context : DrawContext) :
    (self.draw_button focus context).depth =
      context.depth + (if focus && self.window.active then 8 / 10 else 6 / 10) := by
  unfold toolbar_tab_button_widget.draw_button DrawContext.translate_z
  cases (focus && self.window.active) <;> simp [add_comm]

theorem draw_label_depth (self : toolbar_tab_button_widget) (context : DrawContext) :
    (self.draw_label context).depth = context.depth + 9 / 10 := by
  unfold toolbar_tab_button_widget.draw_label DrawContext.translate_z
  simp [add_comm]

/-- C23, the claim refuted: a focused, selected tab button in an active window
whose draw context lies at depth 1, one layer above the context of its parent
at depth 0, draws its label at depth 1.9 and its focus line at depth 1.7: the
label is not below the focus line. -/
theorem tab_label_above_focus_line :
    fixture_tab.window.active = true ∧
      fixture_tab.draw_focus_line true true ⟨0⟩ = some ⟨17 / 10⟩ ∧
      (fixture_tab.draw_label ⟨1⟩).depth = 19 / 10 ∧
      ¬ ((fixture_tab.draw_label ⟨1⟩).depth < 17 / 10) := by
  refine ⟨rfl, ?_, ?_, ?_⟩
  · have h : fixture_tab.window.active = true := rfl
    simp [toolbar_tab_button_widget.draw_focus_line, DrawContext.translate_z, h]
  · rw [draw_label_depth]; norm_num
  · rw [draw_label_depth]; norm_num

/-- C23, amended: in every state the background of a toolbar tab button is drawn
0.8 above its draw context when the widget has focus and the window is active
and 0.6 above it otherwise, and the label 0.9 above it, so the background is
always strictly below the label; the focus line, drawn only for a focused
selected button in an active window, is 1.7 above the draw context of the
parent, so the label is below it exactly when the context of the button lies
less than 0.8 above that of the parent; and every depth at or above the draw
layer of an overlay view (draw layer of its parent plus 20) is strictly greater
than each of these offsets taken in the layer of the parent. -/
theorem tab_button_paint_order (C : Type) (self : toolbar_tab_button_widget)
    (focus value_is_true_value : Bool) (context parent_context : DrawContext)
    (Widget_ctor : Window → Option Widget → Widget) (window : Window) (parent : Widget)
    (depth : ℚ)
    (hdepth : (overlay_view_widget.ctor Widget_ctor window (some parent) :
        overlay_view_widget C).p_draw_layer ≤ depth) :
    (self.draw_button focus context).depth =
        context.depth + (if focus && self.window.active then 8 / 10 else 6 / 10) ∧
      (self.draw_label context).depth = context.depth + 9 / 10 ∧
      (self.draw_button focus context).depth < (self.draw_label context).depth ∧
      self.draw_focus_line focus value_is_true_value parent_context =
        (if focus && self.window.active && value_is_true_value then
          some ⟨parent_context.depth + 17 / 10⟩
        else none) ∧
      ((self.draw_label context).depth < parent_context.depth + 17 / 10 ↔
        context.depth < parent_context.depth + 8 / 10) ∧
      (parent.p_draw_layer + 6 / 10 < depth ∧ parent.p_draw_layer + 8 / 10 < depth ∧
        parent.p_draw_layer + 9 / 10 < depth ∧ parent.p_draw_layer + 17 / 10 < depth) := by
  have hlayer : (overlay_view_widget.ctor Widget_ctor window (some parent) :
      overlay_view_widget C).p_draw_layer = parent.p_draw_layer + 20 := rfl
  rw [hlayer] at hdepth
  refine ⟨draw_button_depth self focus context, draw_label_depth self context, ?_, ?_, ?_, ?_⟩
  · rw [draw_button_depth, draw_label_depth]
    cases (focus && self.window.active) <;> norm_num
  · unfold toolbar_tab_button_widget.draw_focus_line DrawContext.translate_z
    cases (focus && self.window.active && value_is_true_value) <;> simp [add_comm]
  · rw [draw_label_depth]
    constructor <;> intro h <;> linarith
  · refine ⟨?_, ?_, ?_, ?_⟩ <;> linarith

/-- C23, amended, at the fixture tab button and an overlay view constructed
over a parent at draw layer 1, for the depth 21. -/
theorem tab_button_paint_order_witness :
    (overlay_view_widget.ctor (fun _ _ => fixture_widget) fixture_window
          (some fixture_widget) : overlay_view_widget Unit).p_draw_layer ≤ 21 ∧
      (fixture_tab.draw_button true ⟨1⟩).depth < (fixture_tab.draw_label ⟨1⟩).depth ∧
      fixture_widget.p_draw_layer + 17 / 10 < 21 := by
  have hdepth : (overlay_view_widget.ctor (fun _ _ => fixture_widget) fixture_window
      (some fixture_widget) : overlay_view_widget Unit).p_draw_layer ≤ 21 := by
    show fixture_widget.p_draw_layer + 20 ≤ 21
    norm_num [fixture_widget]
  obtain ⟨_, _, h3, _, _, _, _, _, h4⟩ :=
    tab_button_paint_order Unit fixture_tab true true ⟨1⟩ ⟨0⟩ (fun _ _ => fixture_widget)
      fixture_window fixture_widget 21 hdepth
  exact ⟨hdepth, h3, h4⟩

/-! ## Claims on alignment inside the outside rectangle -/

/-- C24, the claim refuted on float32 lanes: the inside of width and height
0.7f is no larger than the outside (0, 0, 1.9f, 1.9f), and aligned top right
its right edge is 3984589/2097152 (1.9000001), beyond the right edge 1.9f of
the outside. -/
theorem align_float32_leaves_outside :
    (0 ≤ (⟨⟨0, 0, fixture_0_7f, fixture_0_7f⟩⟩ : aarect).width_fl float32_round ∧
      (⟨⟨0, 0, fixture_0_7f, fixture_0_7f⟩⟩ : aarect).width_fl float32_round ≤
        (⟨⟨0, 0, fixture_1_9f, fixture_1_9f⟩⟩ : aarect).width_fl float32_round ∧
      0 ≤ (⟨⟨0, 0, fixture_0_7f, fixture_0_7f⟩⟩ : aarect).height_fl float32_round ∧
      (⟨⟨0, 0, fixture_0_7f, fixture_0_7f⟩⟩ : aarect).height_fl float32_round ≤
        (⟨⟨0, 0, fixture_1_9f, fixture_1_9f⟩⟩ : aarect).height_fl float32_round) ∧
      (align_fl float32_round ⟨⟨0, 0, fixture_1_9f, fixture_1_9f⟩⟩
          ⟨⟨0, 0, fixture_0_7f, fixture_0_7f⟩⟩ Alignment.TopRight).map
        (fun r => (r.p2.x, (⟨⟨0, 0, fixture_1_9f, fixture_1_9f⟩⟩ : aarect).p2.x)) =
        some (3984589 / 2097152, 15938355 / 8388608) ∧
      (15938355 / 8388608 : ℚ) < 3984589 / 2097152 := by
  decide!

/-- C24, amended: in exact arithmetic, for every alignment and all rectangles
outside and inside with 0 <= inside.width <= outside.width and
0 <= inside.height <= outside.height, align returns a rectangle that lies
within outside: its minimum corner is component-wise at least that of outside
and its maximum corner component-wise at most that of outside; the exact
function is align with the rounding of the lane operations left out. -/
theorem align_within_outside (outside inside : aarect) (alignment : Alignment)
    (_hw0 : 0 ≤ inside.width) (hw : inside.width ≤ outside.width)
    (_hh0 : 0 ≤ inside.height) (hh : inside.height ≤ outside.height) :
    (∃ r : aarect, align outside inside alignment = some r ∧
      outside.p1.x ≤ r.p1.x ∧ outside.p1.y ≤ r.p1.y ∧
      r.p2.x ≤ outside.p2.x ∧ r.p2.y ≤ outside.p2.y) ∧
    align_fl id outside inside alignment = align outside inside alignment := by
  rw [width_v, width_v] at hw
  rw [height_v, height_v] at hh
  refine ⟨⟨_, align_eq outside inside alignment, ?_, ?_, ?_, ?_⟩, rfl⟩
  · simp only [p1_v, extent_v, from_position_extent_v, width_v]
    cases alignment <;> simp only [Alignment.horizontal] <;> linarith
  · simp only [p1_v, extent_v, from_position_extent_v, height_v]
    cases alignment <;> simp only [Alignment.vertical] <;> linarith
  · simp only [p2_v, extent_v, from_position_extent_v, width_v]
    cases alignment <;> simp only [Alignment.horizontal] <;> linarith
  · simp only [p2_v, extent_v, from_position_extent_v, height_v]
    cases alignment <;> simp only [Alignment.vertical] <;> linarith

/-- C24, amended, at the outside (0, 0, 100, 50), an inside of extent (20, 10)
and the alignment top right. -/
theorem align_within_outside_witness :
    0 ≤ (aarect.from_xywh 7 9 20 10).width ∧
      (aarect.from_xywh 7 9 20 10).width ≤ (aarect.from_xywh 0 0 100 50).width ∧
      0 ≤ (aarect.from_xywh 7 9 20 10).height ∧
      (aarect.from_xywh 7 9 20 10).height ≤ (aarect.from_xywh 0 0 100 50).height ∧
      ∃ r : aarect,
        align (aarect.from_xywh 0 0 100 50) (aarect.from_xywh 7 9 20 10) Alignment.TopRight =
          some r ∧
        (aarect.from_xywh 0 0 100 50).p1.x ≤ r.p1.x ∧
        (aarect.from_xywh 0 0 100 50).p1.y ≤ r.p1.y ∧
        r.p2.x ≤ (aarect.from_xywh 0 0 100 50).p2.x ∧
        r.p2.y ≤ (aarect.from_xywh 0 0 100 50).p2.y :=
  have hw0 : 0 ≤ (aarect.from_xywh 7 9 20 10).width := by
    norm_num [aarect.from_xywh, width_v]
  have hw : (aarect.from_xywh 7 9 20 10).width ≤ (aarect.from_xywh 0 0 100 50).width := by
    norm_num [aarect.from_xywh, width_v]
  have hh0 : 0 ≤ (aarect.from_xywh 7 9 20 10).height := by
    norm_num [aarect.from_xywh, height_v]
  have hh : (aarect.from_xywh 7 9 20 10).height ≤ (aarect.from_xywh 0 0 100 50).height := by
    norm_num [aarect.from_xywh, height_v]
  ⟨hw0, hw, hh0, hh,
    (align_within_outside (aarect.from_xywh 0 0 100 50) (aarect.from_xywh 7 9 20 10)
      Alignment.TopRight hw0 hw hh0 hh).1⟩

/-! ## Claims on the Vulkan device -/

/-- C25, the code at the failing input: for two buffers of sizes 32 and 16, both
of alignment 4, allocateDeviceMemory returns the offsets 0 and 0, so the second
buffer starts inside the first one, and it allocates 16 bytes, less than the
32 bytes the first buffer needs. -/
theorem allocateDeviceMemory_overlapping_offsets :
    (Device_vulkan.allocateDeviceMemory [⟨32, 4, 1⟩, ⟨16, 4, 1⟩]).offsets = [0, 0] ∧
      (Device_vulkan.allocateDeviceMemory [⟨32, 4, 1⟩, ⟨16, 4, 1⟩]).sizes = [32, 16] ∧
      (Device_vulkan.allocateDeviceMemory [⟨32, 4, 1⟩, ⟨16, 4, 1⟩]).size = 16 := by
  decide

/-- C26, the code at the failing input: a device that passes the feature, limit,
extension and queue checks, has the surface format (sRGB, B8G8R8A8Unorm) and
offers only the present mode SharedDemandRefresh has best present mode score 0,
and score returns 7 (3 for the format, 4 for a discrete GPU), not 0. -/
theorem score_ignores_missing_present_mode :
    fixture_device.presentModes.foldl surfacePresentMode_step 0 = 0 ∧
      fixture_device.formats.foldl surfaceFormat_step 0 = 3 ∧
      Device_vulkan.score fixture_device = some 7 := by
  decide

end TTauri
